import Mathlib

/-!
# sap/ui/fl/apply/_internal/connectors/Utils.js

A shallow embedding of the connector utilities of the flexibility library
(`getConnectors`, `getUrl`, `sendRequest`) and the properties of its
specification that hold of them.

Conventions of the embedding:

* a JavaScript value that may be `undefined`/`null` is an `Option`;
* a condition `if (x)` on an optional string is `truthy x`: the value is
  present and is not the empty string (arrays and objects are always truthy,
  so an optional array is tested with `Option.isSome`);
* a `Promise` is represented by the state it ends in, `PromiseState`:
  `resolved`, `rejected`, or `pending` when neither callback is ever called
  (for instance because the code that would call it threw);
* functions of the platform or of other modules (`encodeURLParameters`,
  `String.prototype.toUpperCase`, `JSON.parse`, `sap.ui.require`) are
  parameters of the definitions that call them.
-/

namespace Utils

/-! ## JavaScript values -/

/-- Truthiness of an optional string: present and not empty. -/
def truthy : Option String → Bool
  | none => false
  | some s => s != ""

/-- The state a promise ends in. -/
inductive PromiseState (α ε : Type) where
  | resolved (value : α)
  | rejected (reason : ε)
  | pending
  deriving DecidableEq, Repr

/-! ## getUrl -/

/-- The property bag read by `getUrl`. -/
structure UrlPropertyBag where
  url : Option String := none
  reference : Option String := none
  cacheKey : Option String := none
  deriving DecidableEq, Repr

/-- Query parameters: the own enumerable properties of `mParameters`, in order. -/
abbrev Parameters := List (String × String)

/-- The function `getUrl`, lines 114 to 137. `encodeURLParameters` is the
imported module `sap/base/security/encodeURLParameters`. A thrown `Error` is
`Except.error` with its message. -/
def getUrl (encodeURLParameters : Parameters → String)
    (sRoute : Option String) (mPropertyBag : UrlPropertyBag)
    (mParameters : Option Parameters) : Except String String :=
  if !truthy sRoute || !truthy mPropertyBag.url then
    Except.error "Not all necessary parameters were passed"
  else
    let sUrl := mPropertyBag.url.getD "" ++ sRoute.getD ""
    let sUrl := if truthy mPropertyBag.cacheKey then
        sUrl ++ ("~" ++ mPropertyBag.cacheKey.getD "" ++ "~/") else sUrl
    let sUrl := if truthy mPropertyBag.reference then
        sUrl ++ mPropertyBag.reference.getD "" else sUrl
    let sUrl := match mParameters with
      | some p =>
        let sQueryParameters := encodeURLParameters p
        if sQueryParameters.length > 0 then sUrl ++ ("?" ++ sQueryParameters) else sUrl
      | none => sUrl
    Except.ok sUrl

/-! ## getConnectors -/

/-- A loaded connector module: the layers it declares, and a name standing
for the rest of the module (its connector-specific operations). -/
structure ConnectorModule where
  name : String
  layers : List String
  deriving DecidableEq, Repr

/-- One connector declaration, as held in the list `mConnectors`. The
properties `connector`, `custom` and `layerFilter` come from the declaration;
`layers` and `connectorModule` are the ones `getConnectors` reads and writes.
An absent `custom` is `false`. -/
structure ConnectorConfig where
  connector : String
  custom : Bool := false
  layerFilter : Option (List String) := none
  layers : Option (List String) := none
  connectorModule : Option ConnectorModule := none
  deriving DecidableEq, Repr

/-- The constant of line 26. -/
def APPLY_CONNECTOR_NAME_SPACE : String := "sap/ui/fl/apply/_internal/connectors/"

/-- The object of lines 27 to 30, as it is when the module is loaded. -/
def STATIC_FILE_CONNECTOR_CONFIGURATION : ConnectorConfig :=
  { layerFilter := some [], connector := "StaticFileConnector" }

/-- The method `Array.prototype.indexOf` on an array of strings: the index of
the first element strictly equal to `s`, counted from `i`, or `-1`. -/
def indexOfFrom (s : String) : List String → Int → Int
  | [], _ => -1
  | x :: xs, i => if x = s then i else indexOfFrom s xs (i + 1)

/-- The call `a.indexOf(s)`. -/
def indexOf (a : List String) (s : String) : Int := indexOfFrom s a 0

/-- The function `_filterValidLayers`, lines 32 to 36. -/
def _filterValidLayers (aLayers aValidLayers : List String) : List String :=
  aLayers.filter fun sLayer =>
    indexOf aValidLayers sLayer != -1 || aValidLayers.head? == some "ALL"

/-- The body of the `forEach` callback, lines 63 to 68, as the new value of
the entry `mConnectors[iIndex]` for the loaded module `oConnector`. -/
def resolveEntry (mConnector : ConnectorConfig) (oConnector : ConnectorModule) :
    ConnectorConfig :=
  let withLayers : ConnectorConfig :=
    if !mConnector.layers.isSome then
      { mConnector with layers := some oConnector.layers }
    else
      { mConnector with
        layers := some (_filterValidLayers (mConnector.layers.getD []) oConnector.layers) }
  { withLayers with connectorModule := some oConnector }

/-- The loop `Array.from(arguments).forEach(...)` of lines 62 to 69 from index
`iIndex` on: each loaded module updates the entry at its own index. It is
`none` when an index has no entry, where reading `mConnectors[iIndex].layers`
throws a `TypeError`. -/
def forEachModule : List ConnectorModule → Nat → List ConnectorConfig →
    Option (List ConnectorConfig)
  | [], _, mConnectors => some mConnectors
  | oConnector :: rest, iIndex, mConnectors =>
    match mConnectors[iIndex]? with
    | none => none
    | some mConnector =>
      forEachModule rest (iIndex + 1) (mConnectors.set iIndex (resolveEntry mConnector oConnector))

/-- What a call `sap.ui.require(aConnectors, callback)` leads to. The call is
made inside the executor of the promise, with a success callback and no
error callback:

* `loaded`: the modules load and the callback is called with them;
* `failed`: a module fails to load and the loader reports it later (to the
  error callback, had there been one): the callback is never called;
* `thrown`: the call itself throws `error`, inside the executor. -/
inductive RequireOutcome where
  | loaded (modules : List ConnectorModule)
  | failed
  | thrown (error : String)
  deriving DecidableEq, Repr

/-- The identifiers passed to `sap.ui.require`, lines 56 to 59. -/
def moduleNames (sNameSpace : String) (mConnectors : List ConnectorConfig) : List String :=
  mConnectors.map fun mConnectorConfiguration =>
    let sConnector := mConnectorConfiguration.connector
    if mConnectorConfiguration.custom then sConnector else sNameSpace ++ sConnector

/-- The list `mConnectors` built by lines 48 to 53. -/
def connectorList (oStatic : ConnectorConfig) (aConfiguredConnectors : List ConnectorConfig)
    (bIncludingStaticFileConnector : Bool) : List ConnectorConfig :=
  let mConnectors : List ConnectorConfig :=
    if bIncludingStaticFileConnector then [oStatic] else []
  mConnectors ++ aConfiguredConnectors

/-- The function `getConnectors`, lines 46 to 74.

* `oStatic` is the present value of the module-level object
  `STATIC_FILE_CONNECTOR_CONFIGURATION`, which the function itself updates;
* `aConfiguredConnectors` is what `getFlexibilityServices()` returns;
* `require` is `sap.ui.require`. When it throws, the executor throws and the
  promise is rejected with the error. When the load fails later, the
  callback is never called, no error callback is passed and the executor has
  no `reject`: the promise stays pending. It stays pending as well when the
  callback, which the loader calls later, throws before it reaches `resolve`. -/
def getConnectors (oStatic : ConnectorConfig) (aConfiguredConnectors : List ConnectorConfig)
    (require : List String → RequireOutcome)
    (sNameSpace : String) (bIncludingStaticFileConnector : Bool) :
    PromiseState (List ConnectorConfig) String :=
  let mConnectors := connectorList oStatic aConfiguredConnectors bIncludingStaticFileConnector
  let aConnectors := moduleNames sNameSpace mConnectors
  match require aConnectors with
  | RequireOutcome.thrown error => PromiseState.rejected error
  | RequireOutcome.failed => PromiseState.pending
  | RequireOutcome.loaded arguments =>
    match forEachModule arguments 0 mConnectors with
    | none => PromiseState.pending
    | some resolved => PromiseState.resolved resolved

/-- The function `getApplyConnectors`, lines 82 to 84. -/
def getApplyConnectors (oStatic : ConnectorConfig) (aConfiguredConnectors : List ConnectorConfig)
    (require : List String → RequireOutcome) :
    PromiseState (List ConnectorConfig) String :=
  getConnectors oStatic aConfiguredConnectors require APPLY_CONNECTOR_NAME_SPACE true

/-! ## sendRequest -/

/-- The property bag read by `sendRequest`. -/
structure RequestPropertyBag where
  xsrfToken : Option String := none
  flexObjects : Option String := none
  contentType : Option String := none
  dataType : Option String := none
  deriving DecidableEq, Repr

/-- The request side of an `XMLHttpRequest`: what `open`, `setRequestHeader`,
the assignment to `responseType` and `send` were called with.
`requestHeaders` lists the calls of `setRequestHeader` in order; `sent` is
`none` before `send`, and afterwards holds the body passed to it. -/
structure XHR where
  method : String
  url : String
  requestHeaders : List (String × String) := []
  responseType : String := ""
  sent : Option (Option String) := none
  deriving DecidableEq, Repr

/-- The call `xhr.setRequestHeader(name, value)`. -/
def XHR.setRequestHeader (xhr : XHR) (name value : String) : XHR :=
  { xhr with requestHeaders := xhr.requestHeaders ++ [(name, value)] }

/-- The call `xhr.send(body)`. -/
def XHR.send (xhr : XHR) (body : Option String) : XHR :=
  { xhr with sent := some body }

/-- The values of the `X-CSRF-Token` request header set on a request. -/
def XHR.tokenHeaders (xhr : XHR) : List String :=
  (xhr.requestHeaders.filter fun h => h.1 == "X-CSRF-Token").map Prod.snd

/-- The method after lines 172 and 173: `sMethod || "GET"`, upper-cased. -/
def normalizeMethod (toUpperCase : String → String) (sMethod : Option String) : String :=
  let sMethod := if truthy sMethod then sMethod.getD "" else "GET"
  toUpperCase sMethod

/-- The request issued by `sendRequest`, lines 171 to 194: the state of the
`XMLHttpRequest` after `send`. `toUpperCase` is `String.prototype.toUpperCase`. -/
def sendRequest (toUpperCase : String → String)
    (sUrl : String) (sMethod : Option String) (mPropertyBag : Option RequestPropertyBag) : XHR :=
  let sMethod := normalizeMethod toUpperCase sMethod
  let xhr : XHR := { method := sMethod, url := sUrl }
  let xsrfToken := mPropertyBag.bind (·.xsrfToken)
  let xhr :=
    if (sMethod == "GET" || sMethod == "HEAD") && (!mPropertyBag.isSome || !truthy xsrfToken) then
      xhr.setRequestHeader "X-CSRF-Token" "fetch"
    else xhr
  let xhr :=
    if (sMethod == "POST" || sMethod == "PUT" || sMethod == "DELETE")
        && mPropertyBag.isSome && truthy xsrfToken then
      xhr.setRequestHeader "X-CSRF-Token" (xsrfToken.getD "")
    else xhr
  let contentType := mPropertyBag.bind (·.contentType)
  let xhr :=
    if mPropertyBag.isSome && truthy contentType then
      xhr.setRequestHeader "Content-Type" (contentType.getD "")
    else xhr
  let dataType := mPropertyBag.bind (·.dataType)
  let xhr :=
    if mPropertyBag.isSome && truthy dataType then
      { xhr with responseType := dataType.getD "" }
    else xhr
  let flexObjects := mPropertyBag.bind (·.flexObjects)
  if mPropertyBag.isSome && truthy flexObjects then
    xhr.send flexObjects
  else
    xhr.send none

/-- The response side of an `XMLHttpRequest` when `onload` fires. -/
structure XhrResponse where
  status : Int
  statusText : String
  response : String
  getResponseHeader : String → Option String

/-- The value `oResult` the promise of `sendRequest` resolves with. `J` is the
type of parsed JSON values. -/
structure RequestResult (J : Type) where
  response : Option J
  status : Int
  xsrfToken : Option String
  deriving DecidableEq, Repr

/-- The object the promise of `sendRequest` rejects with. -/
structure RequestError where
  status : Int
  message : String
  deriving DecidableEq, Repr

/-- The method `String.prototype.startsWith`. -/
def startsWith (s searchString : String) : Bool :=
  searchString.data.isPrefixOf s.data

/-- The handler `xhr.onload`, lines 195 to 211, as the state it leaves the
promise of `sendRequest` in. `JSONparse` is `JSON.parse`, `none` where it
throws a `SyntaxError`: the handler then throws before `resolve`, and the
promise stays pending. -/
def onload {J : Type} (JSONparse : String → Option J) (xhr : XhrResponse) :
    PromiseState (RequestResult J) RequestError :=
  if xhr.status ≥ 200 && xhr.status < 400 then
    let sContentType := xhr.getResponseHeader "Content-Type"
    if truthy sContentType && startsWith (sContentType.getD "") "application/json" then
      match JSONparse xhr.response with
      | none => PromiseState.pending
      | some parsed =>
        PromiseState.resolved
          { response := some parsed, status := xhr.status,
            xsrfToken := xhr.getResponseHeader "X-CSRF-Token" }
    else
      PromiseState.resolved
        { response := none, status := xhr.status,
          xsrfToken := xhr.getResponseHeader "X-CSRF-Token" }
  else
    PromiseState.rejected { status := xhr.status, message := xhr.statusText }

/-! ## Stand-ins for the platform functions, used on concrete inputs -/

/-- A `JSON.parse` for concrete inputs: it parses the JSON texts `0` to `9`
and throws on every other text. -/
def parseDigit (s : String) : Option Nat :=
  match s.data with
  | [c] => if c.isDigit then some (c.toNat - 48) else none
  | _ => none

/-- An `encodeURLParameters` for concrete inputs: `name=value` pairs joined by
`&`, for names and values that need no escaping. -/
def encodePlain (p : Parameters) : String :=
  "&".intercalate (p.map fun kv => kv.1 ++ "=" ++ kv.2)

/-- A `sap.ui.require` for concrete inputs: every identifier loads, as a module
named by the identifier and declaring the layers `layers`. -/
def requireAll (layers : List String) (names : List String) : RequireOutcome :=
  RequireOutcome.loaded (names.map fun n => { name := n, layers := layers })

/-- A `toUpperCase` for concrete inputs: it upper-cases the letters `a` to `z`
and leaves every other character. -/
def toUpperAscii (s : String) : String := String.mk (s.data.map Char.toUpper)

/-- A response with the given status and no response header. -/
def plainResponse (status : Int) : XhrResponse :=
  { status := status, statusText := "", response := "", getResponseHeader := fun _ => none }

/-- A response with status 200 and content type `application/json` whose body
`{` is not a JSON text. -/
def brokenJsonResponse : XhrResponse :=
  { status := 200, statusText := "OK", response := "\x7b",
    getResponseHeader := fun name =>
      if name = "Content-Type" then some "application/json" else none }

/-- The contract of the module loader when all modules load: it calls back
with one module for each identifier. -/
def Loads (require : List String → RequireOutcome) (names : List String)
    (modules : List ConnectorModule) : Prop :=
  require names = RequireOutcome.loaded modules ∧ modules.length = names.length

/-- The properties of an entry that come from its declaration. -/
def declaration (e : ConnectorConfig) : String × Bool × Option (List String) :=
  (e.connector, e.custom, e.layerFilter)

/-! ## getSubsetOfObject -/

/-- A JavaScript value. Numbers are the integral ones; a value of an object
type (an object, an array, a function) is the address of its cell on the heap
and is always truthy. -/
inductive JSValue where
  | undefined
  | null
  | boolean (b : Bool)
  | number (n : Int)
  | string (s : String)
  | reference (address : Nat)
  deriving DecidableEq, Repr

/-- The condition `if (v)` on a value. -/
def JSValue.truthy : JSValue → Bool
  | JSValue.undefined => false
  | JSValue.null => false
  | JSValue.boolean b => b
  | JSValue.number n => n != 0
  | JSValue.string s => s != ""
  | JSValue.reference _ => true

/-- The own properties of an object, in the order they were created. What an
object inherits through its prototype chain is given apart from it, where it
is read. -/
abbrev JSObject := List (String × JSValue)

/-- Whether the object `o` has the own property `k`. -/
def hasProperty (o : JSObject) (k : String) : Bool :=
  o.any fun p => p.1 == k

/-- The value of the own property `k` of `o`: `undefined` for a property the
object does not have itself. -/
def getProperty (o : JSObject) (k : String) : JSValue :=
  match o.find? fun p => p.1 == k with
  | some p => p.2
  | none => JSValue.undefined

/-- The definition of the own property `k` of `o` with the value `v`: an
existing property keeps its place, a new one is added last. -/
def setProperty (o : JSObject) (k : String) (v : JSValue) : JSObject :=
  if hasProperty o k then o.map fun p => if p.1 == k then (k, v) else p
  else o ++ [(k, v)]

/-- The read `o[k]`: the own property `k` of `o` or, when the object has none,
the property it inherits through its prototype chain. `inherited` holds the
properties of the chain, with the value a read yields (for an object created
by a literal these are the properties of `Object.prototype`, such as
`toString`); a key found nowhere reads as `undefined`. -/
def readProperty (inherited o : JSObject) (k : String) : JSValue :=
  if hasProperty o k then getProperty o k else getProperty inherited k

/-- The assignment `o[k] = v` on an object created by `{}`, whose prototype
chain holds data properties and the accessor `__proto__` of `Object.prototype`:
for the key `__proto__` the setter of the accessor runs and no own property is
defined; for every other key the own property is defined. -/
def assignProperty (o : JSObject) (k : String) (v : JSValue) : JSObject :=
  if k = "__proto__" then o else setProperty o k v

/-- The function `getSubsetOfObject`, lines 147 to 157. `inherited` holds what
`oSource` inherits through its prototype chain; `aKeys` is `none` when the
argument is not an array (`Array.isArray(aKeys)` is false). -/
def getSubsetOfObject (inherited oSource : JSObject) (aKeys : Option (List String)) :
    JSObject :=
  let oTarget : JSObject := []
  match aKeys with
  | some keys =>
    keys.foldl
      (fun oTarget sKey =>
        if (readProperty inherited oSource sKey).truthy then
          assignProperty oTarget sKey (readProperty inherited oSource sKey)
        else oTarget)
      oTarget
  | none => oTarget

/-- The properties an object created by a literal inherits from
`Object.prototype`, for concrete inputs: `__proto__` reads as
`Object.prototype` itself, at address 0, the other properties are functions,
at the addresses 1 to 11. -/
def objectPrototype : JSObject :=
  [("__proto__", JSValue.reference 0), ("constructor", JSValue.reference 1),
   ("hasOwnProperty", JSValue.reference 2), ("isPrototypeOf", JSValue.reference 3),
   ("propertyIsEnumerable", JSValue.reference 4), ("toLocaleString", JSValue.reference 5),
   ("toString", JSValue.reference 6), ("valueOf", JSValue.reference 7),
   ("__defineGetter__", JSValue.reference 8), ("__defineSetter__", JSValue.reference 9),
   ("__lookupGetter__", JSValue.reference 10), ("__lookupSetter__", JSValue.reference 11)]

/-! ## getEmptyFlexDataResponse -/

/-- A cell of the heap: an array or an object. -/
inductive HeapCell where
  | array (elements : List JSValue)
  | object (properties : JSObject)
  deriving DecidableEq, Repr

/-- The heap: the cells allocated so far; the address of a cell is its index. -/
abbrev Heap := List HeapCell

/-- Evaluation of an array or object literal: a new cell, at a new address. -/
def allocate (h : Heap) (c : HeapCell) : Nat × Heap :=
  (h.length, h ++ [c])

/-- The call `Object.assign(target, source)`: every own property of the
source is assigned to the target, in order. -/
def objectAssign (h : Heap) (target source : Nat) : Heap :=
  match h[target]?, h[source]? with
  | some (HeapCell.object t), some (HeapCell.object s) =>
    h.set target (HeapCell.object (s.foldl (fun t p => setProperty t p.1 p.2) t))
  | _, _ => h

/-- The function `getEmptyFlexDataResponse`, lines 221 to 229: the address of
the returned object and the heap after the call. The arguments of
`Object.assign` are evaluated from left to right: the literal `{}`, then the
five array literals and the object literal holding them. -/
def getEmptyFlexDataResponse (h : Heap) : Nat × Heap :=
  let (target, h) := allocate h (HeapCell.object [])
  let (changes, h) := allocate h (HeapCell.array [])
  let (variants, h) := allocate h (HeapCell.array [])
  let (variantChanges, h) := allocate h (HeapCell.array [])
  let (variantDependentControlChanges, h) := allocate h (HeapCell.array [])
  let (variantManagementChanges, h) := allocate h (HeapCell.array [])
  let (source, h) := allocate h (HeapCell.object
    [("changes", JSValue.reference changes),
     ("variants", JSValue.reference variants),
     ("variantChanges", JSValue.reference variantChanges),
     ("variantDependentControlChanges", JSValue.reference variantDependentControlChanges),
     ("variantManagementChanges", JSValue.reference variantManagementChanges)])
  (target, objectAssign h target source)

/-- The call `array.push(v)` on the array at address `a`. -/
def arrayPush (h : Heap) (a : Nat) (v : JSValue) : Heap :=
  match h[a]? with
  | some (HeapCell.array elements) => h.set a (HeapCell.array (elements ++ [v]))
  | _ => h

/-- The assignment `object[k] = v` on the object at address `o`. -/
def putProperty (h : Heap) (o : Nat) (k : String) (v : JSValue) : Heap :=
  match h[o]? with
  | some (HeapCell.object properties) => h.set o (HeapCell.object (setProperty properties k v))
  | _ => h

/-- The elements of the array a value refers to, if it refers to one. -/
def arrayAt (h : Heap) : JSValue → Option (List JSValue)
  | JSValue.reference a =>
    match h[a]? with
    | some (HeapCell.array elements) => some elements
    | _ => none
  | _ => none

/-- What a reader of the object at address `r` sees: its properties in order,
each with the elements of the array it holds. -/
def fieldsOf (h : Heap) (r : Nat) : Option (List (String × Option (List JSValue))) :=
  match h[r]? with
  | some (HeapCell.object properties) => some (properties.map fun p => (p.1, arrayAt h p.2))
  | _ => none

/-- The empty flex data response as a reader sees it: five fields, each an
empty array. -/
def emptyFlexData : List (String × Option (List JSValue)) :=
  [("changes", some []), ("variants", some []), ("variantChanges", some []),
   ("variantDependentControlChanges", some []), ("variantManagementChanges", some [])]

/-- The cells one call of `getEmptyFlexDataResponse` adds to a heap of `n`
cells. -/
def responseCells (n : Nat) : List HeapCell :=
  let properties : JSObject :=
    [("changes", JSValue.reference (n + 1)),
     ("variants", JSValue.reference (n + 2)),
     ("variantChanges", JSValue.reference (n + 3)),
     ("variantDependentControlChanges", JSValue.reference (n + 4)),
     ("variantManagementChanges", JSValue.reference (n + 5))]
  [HeapCell.object properties, HeapCell.array [], HeapCell.array [], HeapCell.array [],
   HeapCell.array [], HeapCell.array [], HeapCell.object properties]

/-- The properties of the object at address `r`. -/
def propertiesAt (h : Heap) (r : Nat) : JSObject :=
  match h[r]? with
  | some (HeapCell.object properties) => properties
  | _ => []

/-- The statement `target.push(v)` for a value `target` read from a property:
it changes the heap only when the value refers to an array (on `undefined` it
throws before any change). -/
def pushTo (h : Heap) (target : JSValue) (v : JSValue) : Heap :=
  match target with
  | JSValue.reference a => arrayPush h a v
  | _ => h

/-- A `sap.ui.require` for concrete inputs: the module `missing` fails to load,
which the loader reports later; every other identifier loads as with
`requireAll`. -/
def requireExcept (missing : String) (layers : List String) (names : List String) :
    RequireOutcome :=
  if missing ∈ names then RequireOutcome.failed else requireAll layers names

/-- A `sap.ui.require` for concrete inputs that throws when the module `missing`
is among the requested ones, and otherwise loads as `requireAll`. -/
def requireThrowing (missing : String) (layers : List String) (names : List String) :
    RequireOutcome :=
  if missing ∈ names then RequireOutcome.thrown ("failed to load " ++ missing)
  else requireAll layers names

/-- A response with status 200, content type `application/json` with a
charset, the token `"token"` and the JSON text `7` as body. -/
def jsonResponse : XhrResponse :=
  { status := 200, statusText := "OK", response := "7",
    getResponseHeader := fun name =>
      if name = "Content-Type" then some "application/json; charset=utf-8"
      else if name = "X-CSRF-Token" then some "token"
      else none }

/-! ## Auxiliary facts -/

theorem truthy_some (s : String) : truthy (some s) = true ↔ s ≠ "" := by
  simp [truthy]

theorem truthy_eq_false (o : Option String) : truthy o = false ↔ o = none ∨ o = some "" := by
  cases o with
  | none => simp [truthy]
  | some s => simp [truthy]

theorem length_pos_iff (s : String) : s.length > 0 ↔ s ≠ "" := by
  constructor
  · intro h hs
    subst hs
    exact absurd h (by decide)
  · intro h
    rcases s with ⟨l⟩
    cases l with
    | nil => exact absurd rfl h
    | cons c cs => simp [String.length]

/-! ## getUrl: construction and failure -/

/-- C1: for a non-empty route and a property bag with a non-empty url,
`getUrl` returns exactly `url + route`, then `"~" + cacheKey + "~/"` if the
cache key is present and non-empty, then the reference if it is present and
non-empty, then `"?" + encodeURLParameters(params)` if parameters are given
and their encoding is non-empty, in this order and with nothing else; and
`getUrl("/r/", {url: "https://h", cacheKey: "abc", reference: "ref1"})` is
`"https://h/r/~abc~/ref1"`. -/
theorem getUrl_construction (encodeURLParameters : Parameters → String)
    (route url : String) (bag : UrlPropertyBag) (params : Option Parameters)
    (hroute : route ≠ "") (hbag : bag.url = some url) (hurl : url ≠ "") :
    getUrl encodeURLParameters (some route) bag params =
        Except.ok (url ++ route
          ++ (match bag.cacheKey with
              | some cacheKey => if cacheKey = "" then "" else "~" ++ cacheKey ++ "~/"
              | none => "")
          ++ (match bag.reference with
              | some reference => if reference = "" then "" else reference
              | none => "")
          ++ (match params with
              | some p =>
                if encodeURLParameters p = "" then "" else "?" ++ encodeURLParameters p
              | none => ""))
      ∧ getUrl encodeURLParameters (some "/r/")
          { url := some "https://h", cacheKey := some "abc", reference := some "ref1" } none
        = Except.ok "https://h/r/~abc~/ref1" := by
  refine ⟨?_, rfl⟩
  have hq : ∀ q : String, (q.length > 0) = (q ≠ "") := fun q => propext (length_pos_iff q)
  rcases bag with ⟨u, r, k⟩
  simp only at hbag
  subst hbag
  cases k <;> cases r <;> cases params <;>
    simp [getUrl, hroute, hurl, truthy, hq, String.append_assoc] <;>
    split_ifs <;> simp_all [String.append_assoc]

/-- Instance of `getUrl_construction` with a cache key, a reference and one
query parameter. -/
theorem getUrl_construction_witness :
    getUrl encodePlain (some "/r/")
        { url := some "https://h", cacheKey := some "abc", reference := some "ref1" }
        (some [("a", "1")])
      = Except.ok "https://h/r/~abc~/ref1?a=1" :=
  ((getUrl_construction encodePlain "/r/" "https://h"
      { url := some "https://h", cacheKey := some "abc", reference := some "ref1" }
      (some [("a", "1")]) (by decide) rfl (by decide)).1).trans rfl

/-- C2: `getUrl` throws if and only if the route is absent or empty or the
url of the property bag is absent or empty; for every other input, whatever
the cache key, the reference and the query parameters, it returns a string. -/
theorem getUrl_throws_iff (encodeURLParameters : Parameters → String)
    (sRoute : Option String) (bag : UrlPropertyBag) (params : Option Parameters) :
    ((∃ message, getUrl encodeURLParameters sRoute bag params = Except.error message)
        ↔ (sRoute = none ∨ sRoute = some "" ∨ bag.url = none ∨ bag.url = some ""))
      ∧ ((∃ sUrl, getUrl encodeURLParameters sRoute bag params = Except.ok sUrl)
        ↔ ¬ (sRoute = none ∨ sRoute = some "" ∨ bag.url = none ∨ bag.url = some "")) := by
  have hcond : (sRoute = none ∨ sRoute = some "" ∨ bag.url = none ∨ bag.url = some "")
      ↔ (truthy sRoute = false ∨ truthy bag.url = false) := by
    rw [truthy_eq_false, truthy_eq_false]
    tauto
  rw [hcond]
  by_cases h : truthy sRoute = false ∨ truthy bag.url = false
  · have hthrow : getUrl encodeURLParameters sRoute bag params
        = Except.error "Not all necessary parameters were passed" := by
      unfold getUrl
      rcases h with h | h <;> simp [h]
    simp [hthrow, h]
  · have h' : truthy sRoute = true ∧ truthy bag.url = true := by
      simpa [not_or] using h
    have hret : ∃ sUrl, getUrl encodeURLParameters sRoute bag params = Except.ok sUrl := by
      unfold getUrl
      simp only [h'.1, h'.2, Bool.not_true, Bool.or_self, Bool.false_eq_true, if_false]
      exact ⟨_, rfl⟩
    obtain ⟨sUrl, hs⟩ := hret
    simp [hs, h]

/-! ## sendRequest: token header and status classification -/

theorem sendRequest_method (toUpperCase : String → String)
    (sUrl : String) (sMethod : Option String) (mPropertyBag : Option RequestPropertyBag) :
    (sendRequest toUpperCase sUrl sMethod mPropertyBag).method
      = normalizeMethod toUpperCase sMethod := by
  unfold sendRequest XHR.send XHR.setRequestHeader
  simp only []
  split_ifs <;> rfl

theorem sendRequest_requestHeaders (toUpperCase : String → String)
    (sUrl : String) (sMethod : Option String) (mPropertyBag : Option RequestPropertyBag) :
    (sendRequest toUpperCase sUrl sMethod mPropertyBag).requestHeaders
      = (if (normalizeMethod toUpperCase sMethod == "GET"
              || normalizeMethod toUpperCase sMethod == "HEAD")
            && (!mPropertyBag.isSome || !truthy (mPropertyBag.bind (·.xsrfToken)))
          then [("X-CSRF-Token", "fetch")] else [])
        ++ (if (normalizeMethod toUpperCase sMethod == "POST"
              || normalizeMethod toUpperCase sMethod == "PUT"
              || normalizeMethod toUpperCase sMethod == "DELETE")
            && mPropertyBag.isSome && truthy (mPropertyBag.bind (·.xsrfToken))
          then [("X-CSRF-Token", (mPropertyBag.bind (·.xsrfToken)).getD "")] else [])
        ++ (if mPropertyBag.isSome && truthy (mPropertyBag.bind (·.contentType))
          then [("Content-Type", (mPropertyBag.bind (·.contentType)).getD "")] else []) := by
  unfold sendRequest
  simp only []
  split_ifs <;> simp [XHR.send, XHR.setRequestHeader]

/-- C3: with the method upper-cased and defaulting to `"GET"`, `sendRequest`
sets the `X-CSRF-Token` request header to `"fetch"` when the method is `GET`
or `HEAD` and no (non-empty) token is supplied, to the supplied token when the
method is `POST`, `PUT` or `DELETE` and a token is supplied, and sets no token
header in every other combination. -/
theorem sendRequest_token_header (toUpperCase : String → String)
    (sUrl : String) (sMethod : Option String) (mPropertyBag : Option RequestPropertyBag) :
    (sendRequest toUpperCase sUrl sMethod mPropertyBag).method
        = toUpperCase (match sMethod with
            | some m => if m = "" then "GET" else m
            | none => "GET")
      ∧ (sendRequest toUpperCase sUrl sMethod mPropertyBag).tokenHeaders
        = (let method := (sendRequest toUpperCase sUrl sMethod mPropertyBag).method
           match (mPropertyBag.bind fun bag => bag.xsrfToken).filter fun t => t ≠ "" with
           | none => if method = "GET" ∨ method = "HEAD" then ["fetch"] else []
           | some token =>
             if method = "POST" ∨ method = "PUT" ∨ method = "DELETE" then [token] else []) := by
  constructor
  · rw [sendRequest_method]
    unfold normalizeMethod
    rcases sMethod with _ | m
    · simp [truthy]
    · by_cases hm0 : m = "" <;> simp [truthy, hm0]
  · simp only [sendRequest_method, XHR.tokenHeaders, sendRequest_requestHeaders]
    generalize normalizeMethod toUpperCase sMethod = method
    rcases mPropertyBag with _ | ⟨tok, flex, ct, dt⟩
    · by_cases h1 : method = "GET" <;> by_cases h2 : method = "HEAD" <;>
        by_cases h3 : method = "POST" <;> by_cases h4 : method = "PUT" <;>
        by_cases h5 : method = "DELETE" <;>
        simp [truthy, h1, h2, h3, h4, h5, Option.filter]
    · have hct : List.filter (fun h : String × String => h.1 == "X-CSRF-Token")
          (if truthy ct then [("Content-Type", ct.getD "")] else []) = [] := by
        split_ifs <;> simp
      rcases tok with _ | t
      · by_cases h1 : method = "GET" <;> by_cases h2 : method = "HEAD" <;>
          simp [truthy, h1, h2, Option.filter, hct]
      · by_cases ht : t = ""
        · subst ht
          by_cases h1 : method = "GET" <;> by_cases h2 : method = "HEAD" <;>
            simp [truthy, h1, h2, Option.filter, hct]
        · by_cases h3 : method = "POST" <;> by_cases h4 : method = "PUT" <;>
            by_cases h5 : method = "DELETE" <;>
            simp [truthy, h3, h4, h5, ht, Option.filter, hct]

/-- Examples for `sendRequest_token_header`, with `toUpperAscii` for
`toUpperCase`: a `GET` without token sends `"fetch"`, a `post` with the token
`"T"` sends `"T"`, a `POST` without token and a `GET` with a token send no
token header. -/
theorem sendRequest_token_header_examples :
    (sendRequest toUpperAscii "/u" none none).tokenHeaders = ["fetch"]
      ∧ (sendRequest toUpperAscii "/u" (some "post") (some { xsrfToken := some "T" })).tokenHeaders
          = ["T"]
      ∧ (sendRequest toUpperAscii "/u" (some "POST") none).tokenHeaders = []
      ∧ (sendRequest toUpperAscii "/u" (some "GET") (some { xsrfToken := some "T" })).tokenHeaders
          = [] := by
  refine ⟨?_, ?_, ?_, ?_⟩ <;> decide

/-- C4, the code at a failing input: on a response with status 200 whose
content type is `application/json` and whose body is not a JSON text,
`JSON.parse` throws in the handler and the promise is neither resolved nor
rejected, although `200 <= 200 < 400`. -/
theorem onload_200_not_resolved :
    (200 : Int) ≤ brokenJsonResponse.status ∧ brokenJsonResponse.status < 400
      ∧ onload parseDigit brokenJsonResponse = PromiseState.pending
      ∧ ¬ ∃ oResult, onload parseDigit brokenJsonResponse = PromiseState.resolved oResult := by
  have h : onload parseDigit brokenJsonResponse = PromiseState.pending := by decide
  refine ⟨by decide, by decide, h, ?_⟩
  rintro ⟨r, hr⟩
  rw [h] at hr
  exact PromiseState.noConfusion hr

/-- The outcomes of `onload` by status: the promise is rejected exactly for a
status below 200 or from 400 on, with the status and the status text; for a
status in `[200, 400)` it is resolved unless the body has to be parsed and
`JSON.parse` throws. The statuses 199, 200, 399 and 400 on a response without
headers. -/
theorem onload_status_classification {J : Type} (JSONparse : String → Option J)
    (xhr : XhrResponse) :
    (∀ oError, onload JSONparse xhr = PromiseState.rejected oError
        ↔ (¬ (200 ≤ xhr.status ∧ xhr.status < 400)
            ∧ oError = { status := xhr.status, message := xhr.statusText }))
      ∧ ((∃ oResult, onload JSONparse xhr = PromiseState.resolved oResult)
        ↔ (200 ≤ xhr.status ∧ xhr.status < 400
            ∧ ¬ (truthy (xhr.getResponseHeader "Content-Type") = true
                ∧ startsWith ((xhr.getResponseHeader "Content-Type").getD "") "application/json"
                    = true
                ∧ JSONparse xhr.response = none)))
      ∧ onload JSONparse (plainResponse 199)
          = PromiseState.rejected { status := 199, message := "" }
      ∧ onload JSONparse (plainResponse 200)
          = PromiseState.resolved { response := none, status := 200, xsrfToken := none }
      ∧ onload JSONparse (plainResponse 399)
          = PromiseState.resolved { response := none, status := 399, xsrfToken := none }
      ∧ onload JSONparse (plainResponse 400)
          = PromiseState.rejected { status := 400, message := "" } := by
  refine ⟨?_, ?_, ?_, ?_, ?_, ?_⟩
  · intro oError
    unfold onload
    by_cases hs : 200 ≤ xhr.status ∧ xhr.status < 400
    · simp only [hs.1, hs.2, ge_iff_le, decide_True, Bool.and_self, if_true]
      split_ifs
      · cases JSONparse xhr.response <;> simp
      · simp
    · have hs' : ((decide (xhr.status ≥ 200) && decide (xhr.status < 400)) = true) = False := by
        simpa using hs
      simp only [hs', if_false]
      simp [hs, eq_comm]
  · unfold onload
    by_cases hs : 200 ≤ xhr.status ∧ xhr.status < 400
    · simp only [hs.1, hs.2, ge_iff_le, decide_True, Bool.and_self, if_true]
      by_cases hc : (truthy (xhr.getResponseHeader "Content-Type")
          && startsWith ((xhr.getResponseHeader "Content-Type").getD "") "application/json") = true
      · simp only [hc, if_true]
        have hc' := hc
        simp only [Bool.and_eq_true] at hc'
        cases hp : JSONparse xhr.response <;> simp [hc'.1, hc'.2]
      · simp only [hc, if_false]
        have hc' : ¬ (truthy (xhr.getResponseHeader "Content-Type") = true
            ∧ startsWith ((xhr.getResponseHeader "Content-Type").getD "") "application/json"
              = true) := by
          simpa [Bool.and_eq_true] using hc
        simp only [true_and]
        constructor
        · intro _ h
          exact hc' ⟨h.1, h.2.1⟩
        · intro _
          exact ⟨_, rfl⟩
    · have hs' : ((decide (xhr.status ≥ 200) && decide (xhr.status < 400)) = true) = False := by
        simpa using hs
      simp only [hs', if_false]
      constructor
      · rintro ⟨r, hr⟩
        exact PromiseState.noConfusion hr
      · rintro ⟨h1, h2, _⟩
        exact absurd ⟨h1, h2⟩ hs
  all_goals simp [onload, plainResponse, truthy]

/-! ## getConnectors: the resolved list -/

theorem indexOfFrom_nonneg (s : String) (a : List String) (i : Int) (hi : 0 ≤ i) :
    indexOfFrom s a i = -1 ∨ 0 ≤ indexOfFrom s a i := by
  induction a generalizing i with
  | nil => exact Or.inl rfl
  | cons x xs ih =>
    unfold indexOfFrom
    split_ifs
    · exact Or.inr hi
    · exact ih (i + 1) (by omega)

theorem indexOfFrom_ne_iff (s : String) (a : List String) (i : Int) (hi : 0 ≤ i) :
    indexOfFrom s a i ≠ -1 ↔ s ∈ a := by
  induction a generalizing i with
  | nil => simp [indexOfFrom]
  | cons x xs ih =>
    unfold indexOfFrom
    by_cases hx : x = s
    · simp only [hx, if_true, List.mem_cons, true_or, iff_true]
      omega
    · simp only [hx, if_false, List.mem_cons]
      rw [ih (i + 1) (by omega)]
      constructor
      · exact Or.inr
      · rintro (h | h)
        · exact absurd h.symm hx
        · exact h

theorem indexOf_ne_iff (a : List String) (s : String) : indexOf a s ≠ -1 ↔ s ∈ a :=
  indexOfFrom_ne_iff s a 0 (le_refl 0)

theorem filterValidLayers_eq (aLayers aValidLayers : List String) :
    _filterValidLayers aLayers aValidLayers
      = aLayers.filter fun x => decide (x ∈ aValidLayers ∨ aValidLayers.head? = some "ALL") := by
  unfold _filterValidLayers
  apply List.filter_congr
  intro x _
  have hidx : (indexOf aValidLayers x != -1) = decide (x ∈ aValidLayers) := by
    by_cases h1 : x ∈ aValidLayers
    · simpa [h1] using (indexOf_ne_iff aValidLayers x).2 h1
    · simpa [h1] using not_not.mp ((indexOf_ne_iff aValidLayers x).not.2 h1)
  rw [hidx]
  by_cases h1 : x ∈ aValidLayers <;> by_cases h2 : aValidLayers.head? = some "ALL" <;>
    simp [h1, h2]

theorem forEachModule_append (modules : List ConnectorModule) :
    ∀ (done rest : List ConnectorConfig), modules.length = rest.length →
      forEachModule modules done.length (done ++ rest)
        = some (done ++ List.zipWith resolveEntry rest modules) := by
  induction modules with
  | nil =>
    intro done rest h
    have : rest = [] := List.eq_nil_of_length_eq_zero h.symm
    subst this
    simp [forEachModule]
  | cons m ms ih =>
    intro done rest h
    cases rest with
    | nil => simp at h
    | cons e es =>
      have hlen : ms.length = es.length := by simpa using h
      have hget : (done ++ e :: es)[done.length]? = some e := by
        rw [List.getElem?_append_right (le_refl _)]
        simp
      have hset : (done ++ e :: es).set done.length (resolveEntry e m)
          = (done ++ [resolveEntry e m]) ++ es := by
        simp [List.set_append]
      have hnext := ih (done ++ [resolveEntry e m]) es hlen
      simp only [List.length_append, List.length_singleton] at hnext
      simp only [forEachModule, hget, hset, hnext]
      simp

theorem forEachModule_eq_zipWith (modules : List ConnectorModule)
    (mConnectors : List ConnectorConfig) (h : modules.length = mConnectors.length) :
    forEachModule modules 0 mConnectors
      = some (List.zipWith resolveEntry mConnectors modules) := by
  simpa using forEachModule_append modules [] mConnectors h

theorem getConnectors_resolved (oStatic : ConnectorConfig) (aConfigured : List ConnectorConfig)
    (require : List String → RequireOutcome) (sNameSpace : String)
    (bStatic : Bool) (modules : List ConnectorModule)
    (hload : Loads require
      (moduleNames sNameSpace (connectorList oStatic aConfigured bStatic)) modules) :
    getConnectors oStatic aConfigured require sNameSpace bStatic
      = PromiseState.resolved
          (List.zipWith resolveEntry (connectorList oStatic aConfigured bStatic) modules) := by
  obtain ⟨hreq, hlen⟩ := hload
  have hlen' : modules.length = (connectorList oStatic aConfigured bStatic).length := by
    simpa [moduleNames] using hlen
  simp [getConnectors, hreq, forEachModule_eq_zipWith _ _ hlen']

theorem declaration_resolveEntry (e : ConnectorConfig) (m : ConnectorModule) :
    declaration (resolveEntry e m) = declaration e := by
  unfold resolveEntry declaration
  split_ifs <;> rfl

theorem map_declaration_zipWith (es : List ConnectorConfig) :
    ∀ (ms : List ConnectorModule), ms.length = es.length →
      (List.zipWith resolveEntry es ms).map declaration = es.map declaration := by
  induction es with
  | nil => intro ms _; simp
  | cons e es ih =>
    intro ms h
    cases ms with
    | nil => simp at h
    | cons m ms =>
      simp only [List.zipWith_cons_cons, List.map_cons, declaration_resolveEntry]
      rw [ih ms (by simpa using h)]

theorem loads_requireAll (layers : List String) (names : List String) :
    Loads (requireAll layers) names (names.map fun n => { name := n, layers := layers }) :=
  ⟨rfl, by simp⟩

theorem getConnectors_entry (oStatic : ConnectorConfig) (aConfigured : List ConnectorConfig)
    (require : List String → RequireOutcome) (sNameSpace : String)
    (bStatic : Bool) (modules : List ConnectorModule)
    (hload : Loads require
      (moduleNames sNameSpace (connectorList oStatic aConfigured bStatic)) modules)
    (i : Nat) (e : ConnectorConfig) (m : ConnectorModule)
    (he : (connectorList oStatic aConfigured bStatic)[i]? = some e)
    (hm : modules[i]? = some m) :
    ∃ resolved, getConnectors oStatic aConfigured require sNameSpace bStatic
        = PromiseState.resolved resolved
      ∧ resolved[i]? = some (resolveEntry e m) := by
  refine ⟨_, getConnectors_resolved oStatic aConfigured require sNameSpace bStatic modules hload,
    ?_⟩
  rw [List.getElem?_zipWith, he, hm]

/-- C5: for every configured connector sequence and namespace, when the
modules load, `getConnectors(ns, true)` resolves with a list one longer than
the configured sequence, whose first entry is the static entry (connector
`"StaticFileConnector"`) and whose remaining entries are the configured
entries in their order; `getConnectors(ns, false)` resolves with exactly the
configured entries in their order. -/
theorem getConnectors_order (oStatic : ConnectorConfig) (aConfigured : List ConnectorConfig)
    (require : List String → RequireOutcome) (sNameSpace : String)
    (withStatic withoutStatic : List ConnectorModule)
    (hstatic : declaration oStatic = declaration STATIC_FILE_CONNECTOR_CONFIGURATION)
    (hloadWith : Loads require
      (moduleNames sNameSpace (connectorList oStatic aConfigured true)) withStatic)
    (hloadWithout : Loads require
      (moduleNames sNameSpace (connectorList oStatic aConfigured false)) withoutStatic) :
    (∃ resolved, getConnectors oStatic aConfigured require sNameSpace true
          = PromiseState.resolved resolved
        ∧ resolved.length = aConfigured.length + 1
        ∧ resolved.head?.map (fun e => e.connector) = some "StaticFileConnector"
        ∧ resolved.tail.map declaration = aConfigured.map declaration
        ∧ resolved.tail = List.zipWith resolveEntry aConfigured withStatic.tail)
      ∧ (∃ resolved, getConnectors oStatic aConfigured require sNameSpace false
          = PromiseState.resolved resolved
        ∧ resolved.length = aConfigured.length
        ∧ resolved.map declaration = aConfigured.map declaration
        ∧ resolved = List.zipWith resolveEntry aConfigured withoutStatic) := by
  have hlenWith : withStatic.length = aConfigured.length + 1 := by
    simpa [moduleNames, connectorList] using hloadWith.2
  have hlenWithout : withoutStatic.length = aConfigured.length := by
    simpa [moduleNames, connectorList] using hloadWithout.2
  have hconnector : oStatic.connector = "StaticFileConnector" :=
    congrArg Prod.fst hstatic
  constructor
  · refine ⟨_, getConnectors_resolved oStatic aConfigured require sNameSpace true withStatic
      hloadWith, ?_⟩
    cases withStatic with
    | nil => simp at hlenWith
    | cons m ms =>
      have hms : ms.length = aConfigured.length := by simpa using hlenWith
      have hhead : (resolveEntry oStatic m).connector = "StaticFileConnector" := by
        have := congrArg Prod.fst (declaration_resolveEntry oStatic m)
        exact this.trans hconnector
      simp [connectorList, hms, hhead, map_declaration_zipWith aConfigured ms hms]
  · refine ⟨_, getConnectors_resolved oStatic aConfigured require sNameSpace false
      withoutStatic hloadWithout, ?_⟩
    simp [connectorList, hlenWithout, map_declaration_zipWith aConfigured withoutStatic hlenWithout]

/-- Instance of `getConnectors_order`: the static entry and two configured
connectors, one of them custom, with a loader that loads every identifier. -/
theorem getConnectors_order_witness :
    (∃ resolved, getConnectors STATIC_FILE_CONNECTOR_CONFIGURATION
          [{ connector := "LrepConnector" }, { connector := "my/Connector", custom := true }]
          (requireAll ["ALL"]) APPLY_CONNECTOR_NAME_SPACE true
          = PromiseState.resolved resolved
        ∧ resolved.length = 3
        ∧ resolved.map (fun e => e.connector)
          = ["StaticFileConnector", "LrepConnector", "my/Connector"])
      ∧ (∃ resolved, getConnectors STATIC_FILE_CONNECTOR_CONFIGURATION
          [{ connector := "LrepConnector" }, { connector := "my/Connector", custom := true }]
          (requireAll ["ALL"]) APPLY_CONNECTOR_NAME_SPACE false
          = PromiseState.resolved resolved
        ∧ resolved.length = 2
        ∧ resolved.map (fun e => e.connector) = ["LrepConnector", "my/Connector"]) := by
  obtain ⟨⟨r1, h1, hlen1, hhead1, htail1, _⟩, ⟨r2, h2, hlen2, hmap2, _⟩⟩ :=
    getConnectors_order STATIC_FILE_CONNECTOR_CONFIGURATION
      [{ connector := "LrepConnector" }, { connector := "my/Connector", custom := true }]
      (requireAll ["ALL"]) APPLY_CONNECTOR_NAME_SPACE _ _ rfl
      (loads_requireAll _ _) (loads_requireAll _ _)
  refine ⟨⟨r1, h1, hlen1, ?_⟩, ⟨r2, h2, hlen2, ?_⟩⟩
  · cases r1 with
    | nil => simp at hlen1
    | cons e es =>
      have h1' : e.connector = "StaticFileConnector" := by simpa using hhead1
      have h2' := congrArg (List.map Prod.fst) htail1
      simp only [List.tail_cons, List.map_map] at h2'
      simp only [List.map_cons, h1']
      exact congrArg _ h2'
  · have := congrArg (List.map Prod.fst) hmap2
    simpa [List.map_map] using this

/-! ## getConnectors: the layers of a resolved entry -/

/-- C6, counterexample: the configured declaration
`{connector: "LrepConnector", layerFilter: ["CUSTOMER"]}` with a module
declaring the layers `["CUSTOMER", "VENDOR"]` is resolved with the final
layers `["CUSTOMER", "VENDOR"]`, not `["CUSTOMER"]`. -/
theorem getConnectors_layerFilter_not_applied :
    getConnectors STATIC_FILE_CONNECTOR_CONFIGURATION
        [{ connector := "LrepConnector", layerFilter := some ["CUSTOMER"] }]
        (requireAll ["CUSTOMER", "VENDOR"]) APPLY_CONNECTOR_NAME_SPACE false
      = PromiseState.resolved
          [{ connector := "LrepConnector", layerFilter := some ["CUSTOMER"],
             layers := some ["CUSTOMER", "VENDOR"],
             connectorModule := some
               { name := "sap/ui/fl/apply/_internal/connectors/LrepConnector",
                 layers := ["CUSTOMER", "VENDOR"] } }]
      ∧ some ["CUSTOMER", "VENDOR"] ≠ some (["CUSTOMER"].filter
          fun x => decide (x ∈ ["CUSTOMER", "VENDOR"])) := by
  constructor
  · decide
  · decide

/-- C6, amended: a configured declaration `{connector, custom, layerFilter: F}`
taken from the configuration source, which has no property `layers`, is
resolved with the layers its module declares, whatever `F` is: the property
`layerFilter` is not read and is left as it is. -/
theorem getConnectors_layerFilter_ignored (oStatic : ConnectorConfig)
    (aConfigured : List ConnectorConfig)
    (require : List String → RequireOutcome) (sNameSpace : String)
    (bStatic : Bool) (modules : List ConnectorModule)
    (hload : Loads require
      (moduleNames sNameSpace (connectorList oStatic aConfigured bStatic)) modules)
    (i : Nat) (connector : String) (custom : Bool) (F : List String) (m : ConnectorModule)
    (he : (connectorList oStatic aConfigured bStatic)[i]?
      = some { connector := connector, custom := custom, layerFilter := some F })
    (hm : modules[i]? = some m) :
    ∃ resolved, getConnectors oStatic aConfigured require sNameSpace bStatic
        = PromiseState.resolved resolved
      ∧ resolved[i]? = some
          { connector := connector, custom := custom, layerFilter := some F,
            layers := some m.layers, connectorModule := some m } := by
  obtain ⟨resolved, hres, hi⟩ := getConnectors_entry oStatic aConfigured require sNameSpace
    bStatic modules hload i _ m he hm
  exact ⟨resolved, hres, by rw [hi]; rfl⟩

/-- Instance of `getConnectors_layerFilter_ignored`: the declaration with
`layerFilter: ["CUSTOMER"]` and a module declaring `["CUSTOMER", "VENDOR"]`. -/
theorem getConnectors_layerFilter_ignored_witness :
    ∃ resolved, getConnectors STATIC_FILE_CONNECTOR_CONFIGURATION
        [{ connector := "LrepConnector", layerFilter := some ["CUSTOMER"] }]
        (requireAll ["CUSTOMER", "VENDOR"]) APPLY_CONNECTOR_NAME_SPACE true
        = PromiseState.resolved resolved
      ∧ resolved[1]? = some
          { connector := "LrepConnector", custom := false, layerFilter := some ["CUSTOMER"],
            layers := some ["CUSTOMER", "VENDOR"],
            connectorModule := some
              { name := "sap/ui/fl/apply/_internal/connectors/LrepConnector",
                layers := ["CUSTOMER", "VENDOR"] } } :=
  getConnectors_layerFilter_ignored STATIC_FILE_CONNECTOR_CONFIGURATION
    [{ connector := "LrepConnector", layerFilter := some ["CUSTOMER"] }]
    (requireAll ["CUSTOMER", "VENDOR"]) APPLY_CONNECTOR_NAME_SPACE true _
    (loads_requireAll _ _) 1 "LrepConnector" false ["CUSTOMER"]
    { name := "sap/ui/fl/apply/_internal/connectors/LrepConnector",
      layers := ["CUSTOMER", "VENDOR"] } rfl rfl

/-- C7: an entry with pre-declared layers `L` whose module declares the
layers `V` is resolved with exactly the elements `x` of `L`, in the order and
multiplicity of `L`, such that `x` occurs in `V` or the first element of `V`
is `"ALL"`; this list is `_filterValidLayers(L, V)`. -/
theorem getConnectors_predeclared_layers (oStatic : ConnectorConfig)
    (aConfigured : List ConnectorConfig)
    (require : List String → RequireOutcome) (sNameSpace : String)
    (bStatic : Bool) (modules : List ConnectorModule)
    (hload : Loads require
      (moduleNames sNameSpace (connectorList oStatic aConfigured bStatic)) modules)
    (i : Nat) (e : ConnectorConfig) (m : ConnectorModule) (L : List String)
    (he : (connectorList oStatic aConfigured bStatic)[i]? = some e)
    (hm : modules[i]? = some m) (hL : e.layers = some L) :
    ∃ resolved final, getConnectors oStatic aConfigured require sNameSpace bStatic
        = PromiseState.resolved resolved
      ∧ resolved[i]? = some final
      ∧ final.layers
          = some (L.filter fun x => decide (x ∈ m.layers ∨ m.layers.head? = some "ALL"))
      ∧ final.layers = some (_filterValidLayers L m.layers) := by
  obtain ⟨resolved, hres, hi⟩ := getConnectors_entry oStatic aConfigured require sNameSpace
    bStatic modules hload i e m he hm
  have hfinal : (resolveEntry e m).layers = some (_filterValidLayers L m.layers) := by
    simp [resolveEntry, hL]
  exact ⟨resolved, _, hres, hi, by rw [hfinal, filterValidLayers_eq], hfinal⟩

/-- Instance of `getConnectors_predeclared_layers`: pre-declared layers
`["VENDOR", "USER", "VENDOR"]` against a module declaring
`["CUSTOMER", "VENDOR"]`. -/
theorem getConnectors_predeclared_layers_witness :
    ∃ resolved final, getConnectors STATIC_FILE_CONNECTOR_CONFIGURATION
        [{ connector := "LrepConnector", layers := some ["VENDOR", "USER", "VENDOR"] }]
        (requireAll ["CUSTOMER", "VENDOR"]) APPLY_CONNECTOR_NAME_SPACE false
        = PromiseState.resolved resolved
      ∧ resolved[0]? = some final
      ∧ final.layers = some ["VENDOR", "VENDOR"] := by
  obtain ⟨resolved, final, hres, hi, hfilter, _⟩ :=
    getConnectors_predeclared_layers STATIC_FILE_CONNECTOR_CONFIGURATION
      [{ connector := "LrepConnector", layers := some ["VENDOR", "USER", "VENDOR"] }]
      (requireAll ["CUSTOMER", "VENDOR"]) APPLY_CONNECTOR_NAME_SPACE false _
      (loads_requireAll _ _) 0 _
      { name := "sap/ui/fl/apply/_internal/connectors/LrepConnector",
        layers := ["CUSTOMER", "VENDOR"] }
      ["VENDOR", "USER", "VENDOR"] rfl rfl rfl
  exact ⟨resolved, final, hres, hi, hfilter.trans (by decide)⟩

/-- C8, counterexample: an entry with the pre-declared layers `["CUSTOMER"]`
whose module declares the layers `["ALL"]` is resolved with the final layers
`["CUSTOMER"]`, and `"CUSTOMER"` is not among the layers the module declares. -/
theorem getConnectors_layers_not_subset :
    getConnectors STATIC_FILE_CONNECTOR_CONFIGURATION
        [{ connector := "LrepConnector", layers := some ["CUSTOMER"] }]
        (requireAll ["ALL"]) APPLY_CONNECTOR_NAME_SPACE false
      = PromiseState.resolved
          [{ connector := "LrepConnector", layers := some ["CUSTOMER"],
             connectorModule := some
               { name := "sap/ui/fl/apply/_internal/connectors/LrepConnector",
                 layers := ["ALL"] } }]
      ∧ "CUSTOMER" ∈ ["CUSTOMER"] ∧ "CUSTOMER" ∉ ["ALL"] := by
  refine ⟨?_, ?_, ?_⟩ <;> decide

/-- C8, amended: every element of the final layers of a resolved entry is an
element of the layers declared by its module, or else the first layer the
module declares is `"ALL"` and the element is one of the entry's pre-declared
layers. -/
theorem getConnectors_layers_subset_or_all (oStatic : ConnectorConfig)
    (aConfigured : List ConnectorConfig)
    (require : List String → RequireOutcome) (sNameSpace : String)
    (bStatic : Bool) (modules : List ConnectorModule)
    (hload : Loads require
      (moduleNames sNameSpace (connectorList oStatic aConfigured bStatic)) modules)
    (i : Nat) (e : ConnectorConfig) (m : ConnectorModule)
    (he : (connectorList oStatic aConfigured bStatic)[i]? = some e)
    (hm : modules[i]? = some m) :
    ∃ resolved final finalLayers, getConnectors oStatic aConfigured require sNameSpace bStatic
        = PromiseState.resolved resolved
      ∧ resolved[i]? = some final
      ∧ final.layers = some finalLayers
      ∧ ∀ x ∈ finalLayers, x ∈ m.layers
          ∨ (m.layers.head? = some "ALL" ∧ ∃ L, e.layers = some L ∧ x ∈ L) := by
  obtain ⟨resolved, hres, hi⟩ := getConnectors_entry oStatic aConfigured require sNameSpace
    bStatic modules hload i e m he hm
  cases hL : e.layers with
  | none =>
    refine ⟨resolved, _, m.layers, hres, hi, by simp [resolveEntry, hL], ?_⟩
    intro x hx
    exact Or.inl hx
  | some L =>
    refine ⟨resolved, _, _filterValidLayers L m.layers, hres, hi, by simp [resolveEntry, hL], ?_⟩
    intro x hx
    rw [filterValidLayers_eq, List.mem_filter] at hx
    rcases of_decide_eq_true hx.2 with h | h
    · exact Or.inl h
    · exact Or.inr ⟨h, L, rfl, hx.1⟩

/-- Instance of `getConnectors_layers_subset_or_all`: the static entry and a
module declaring `["ALL"]`. -/
theorem getConnectors_layers_subset_or_all_witness :
    ∃ resolved final finalLayers, getConnectors STATIC_FILE_CONNECTOR_CONFIGURATION
        [{ connector := "LrepConnector", layers := some ["CUSTOMER"] }]
        (requireAll ["ALL"]) APPLY_CONNECTOR_NAME_SPACE true
        = PromiseState.resolved resolved
      ∧ resolved[1]? = some final
      ∧ final.layers = some finalLayers
      ∧ ∀ x ∈ finalLayers, x ∈ ["ALL"]
          ∨ ((["ALL"] : List String).head? = some "ALL"
            ∧ ∃ L, some ["CUSTOMER"] = some L ∧ x ∈ L) :=
  getConnectors_layers_subset_or_all STATIC_FILE_CONNECTOR_CONFIGURATION
    [{ connector := "LrepConnector", layers := some ["CUSTOMER"] }]
    (requireAll ["ALL"]) APPLY_CONNECTOR_NAME_SPACE true _
    (loads_requireAll _ _) 1 { connector := "LrepConnector", layers := some ["CUSTOMER"] }
    { name := "sap/ui/fl/apply/_internal/connectors/LrepConnector", layers := ["ALL"] }
    rfl rfl

/-- C9: an entry without pre-declared layers is resolved with the layers its
module declares, verbatim, and with the module loaded for its position as
`connectorModule`. -/
theorem getConnectors_no_predeclared_layers (oStatic : ConnectorConfig)
    (aConfigured : List ConnectorConfig)
    (require : List String → RequireOutcome) (sNameSpace : String)
    (bStatic : Bool) (modules : List ConnectorModule)
    (hload : Loads require
      (moduleNames sNameSpace (connectorList oStatic aConfigured bStatic)) modules)
    (i : Nat) (e : ConnectorConfig) (m : ConnectorModule)
    (he : (connectorList oStatic aConfigured bStatic)[i]? = some e)
    (hm : modules[i]? = some m) (hL : e.layers = none) :
    ∃ resolved final, getConnectors oStatic aConfigured require sNameSpace bStatic
        = PromiseState.resolved resolved
      ∧ resolved[i]? = some final
      ∧ final.layers = some m.layers
      ∧ final.connectorModule = some m := by
  obtain ⟨resolved, hres, hi⟩ := getConnectors_entry oStatic aConfigured require sNameSpace
    bStatic modules hload i e m he hm
  exact ⟨resolved, _, hres, hi, by simp [resolveEntry, hL], by simp [resolveEntry]⟩

/-- Instance of `getConnectors_no_predeclared_layers`: the static entry of a
first call, with a module declaring `["VENDOR", "CUSTOMER"]`. -/
theorem getConnectors_no_predeclared_layers_witness :
    ∃ resolved final, getConnectors STATIC_FILE_CONNECTOR_CONFIGURATION []
        (requireAll ["VENDOR", "CUSTOMER"]) APPLY_CONNECTOR_NAME_SPACE true
        = PromiseState.resolved resolved
      ∧ resolved[0]? = some final
      ∧ final.layers = some ["VENDOR", "CUSTOMER"]
      ∧ final.connectorModule = some
          { name := "sap/ui/fl/apply/_internal/connectors/StaticFileConnector",
            layers := ["VENDOR", "CUSTOMER"] } :=
  getConnectors_no_predeclared_layers STATIC_FILE_CONNECTOR_CONFIGURATION []
    (requireAll ["VENDOR", "CUSTOMER"]) APPLY_CONNECTOR_NAME_SPACE true _
    (loads_requireAll _ _) 0 STATIC_FILE_CONNECTOR_CONFIGURATION
    { name := "sap/ui/fl/apply/_internal/connectors/StaticFileConnector",
      layers := ["VENDOR", "CUSTOMER"] } rfl rfl rfl

/-- C10: when the first layer a module declares is `"ALL"`, in particular
when it declares `["ALL"]`, `_filterValidLayers` returns the pre-declared
layers unchanged. -/
theorem filterValidLayers_all (L V : List String) (hall : V.head? = some "ALL") :
    _filterValidLayers L V = L ∧ _filterValidLayers L ["ALL"] = L := by
  have key : ∀ W : List String, W.head? = some "ALL" → _filterValidLayers L W = L := by
    intro W hW
    rw [filterValidLayers_eq, List.filter_eq_self]
    intro x _
    exact decide_eq_true (Or.inr hW)
  exact ⟨key V hall, key ["ALL"] rfl⟩

/-- Instance of `filterValidLayers_all`: a module declaring `["ALL", "USER"]`. -/
theorem filterValidLayers_all_witness :
    (["ALL", "USER"] : List String).head? = some "ALL"
      ∧ _filterValidLayers ["CUSTOMER", "VENDOR", "CUSTOMER"] ["ALL", "USER"]
        = ["CUSTOMER", "VENDOR", "CUSTOMER"] :=
  ⟨rfl, (filterValidLayers_all ["CUSTOMER", "VENDOR", "CUSTOMER"] ["ALL", "USER"] rfl).1⟩

/-! ## The heap -/

theorem heap_read (h b : Heap) (k : Nat) : (h ++ b)[h.length + k]? = b[k]? := by
  rw [List.getElem?_append_right (Nat.le_add_right _ _)]
  simp

theorem heap_read_zero (h b : Heap) : (h ++ b)[h.length]? = b[0]? :=
  heap_read h b 0

theorem heap_read_old (h b : Heap) (a : Nat) (ha : a < h.length) : (h ++ b)[a]? = h[a]? :=
  List.getElem?_append_left ha

theorem heap_set (h b : Heap) (k : Nat) (c : HeapCell) :
    (h ++ b).set (h.length + k) c = h ++ b.set k c := by
  rw [List.set_append_right _ _ (Nat.le_add_right _ _)]
  simp

theorem heap_set_zero (h b : Heap) (c : HeapCell) :
    (h ++ b).set h.length c = h ++ b.set 0 c :=
  heap_set h b 0 c

theorem getEmptyFlexDataResponse_eq (h : Heap) :
    getEmptyFlexDataResponse h = (h.length, h ++ responseCells h.length) := by
  unfold getEmptyFlexDataResponse
  simp only [allocate, List.length_append, List.length_singleton, List.append_assoc,
    List.singleton_append, List.cons_append, List.nil_append]
  unfold objectAssign
  rw [heap_read_zero, heap_read]
  simp [heap_set_zero, responseCells, setProperty, hasProperty]

theorem heap_two_calls (h : Heap) :
    getEmptyFlexDataResponse (getEmptyFlexDataResponse h).2
      = (h.length + 7, h ++ (responseCells h.length ++ responseCells (h.length + 7))) := by
  rw [getEmptyFlexDataResponse_eq, getEmptyFlexDataResponse_eq]
  simp [responseCells]

theorem arrayAt_new (h b : Heap) (k : Nat) :
    arrayAt (h ++ b) (JSValue.reference (h.length + k))
      = match b[k]? with
        | some (HeapCell.array elements) => some elements
        | _ => none := by
  simp only [arrayAt, heap_read]

theorem fieldsOf_new (h b : Heap) (k : Nat) :
    fieldsOf (h ++ b) (h.length + k)
      = match b[k]? with
        | some (HeapCell.object properties) =>
          some (properties.map fun p => (p.1, arrayAt (h ++ b) p.2))
        | _ => none := by
  simp only [fieldsOf, heap_read]

theorem fieldsOf_new_zero (h b : Heap) :
    fieldsOf (h ++ b) h.length
      = match b[0]? with
        | some (HeapCell.object properties) =>
          some (properties.map fun p => (p.1, arrayAt (h ++ b) p.2))
        | _ => none :=
  fieldsOf_new h b 0

theorem fieldsOf_two_calls (h : Heap) :
    fieldsOf (h ++ (responseCells h.length ++ responseCells (h.length + 7))) h.length
        = some emptyFlexData
      ∧ fieldsOf (h ++ (responseCells h.length ++ responseCells (h.length + 7))) (h.length + 7)
        = some emptyFlexData := by
  constructor
  · simp [fieldsOf_new_zero, arrayAt_new, responseCells, emptyFlexData]
  · simp [fieldsOf_new, arrayAt_new, responseCells, emptyFlexData, Nat.add_assoc]

theorem propertiesAt_new_zero (h b : Heap) :
    propertiesAt (h ++ b) h.length
      = match b[0]? with
        | some (HeapCell.object properties) => properties
        | _ => [] := by
  simp only [propertiesAt, heap_read_zero]

theorem arrayPush_new (h b : Heap) (k : Nat) (v : JSValue) :
    arrayPush (h ++ b) (h.length + k) v
      = h ++ (match b[k]? with
        | some (HeapCell.array elements) => b.set k (HeapCell.array (elements ++ [v]))
        | _ => b) := by
  simp only [arrayPush, heap_read]
  cases hk : b[k]? with
  | none => rfl
  | some c =>
    cases c with
    | array elements => exact heap_set h b k _
    | object properties => rfl

theorem putProperty_new_zero (h b : Heap) (key : String) (v : JSValue) :
    putProperty (h ++ b) h.length key v
      = h ++ (match b[0]? with
        | some (HeapCell.object properties) =>
          b.set 0 (HeapCell.object (setProperty properties key v))
        | _ => b) := by
  simp only [putProperty, heap_read_zero]
  cases hk : b[0]? with
  | none => rfl
  | some c =>
    cases c with
    | array elements => rfl
    | object properties => exact heap_set_zero h b _

theorem fieldsOf_fresh (h : Heap) :
    fieldsOf (getEmptyFlexDataResponse h).2 (getEmptyFlexDataResponse h).1
      = some emptyFlexData := by
  rw [getEmptyFlexDataResponse_eq]
  simp [fieldsOf_new_zero, arrayAt_new, responseCells, emptyFlexData]

theorem propertiesAt_first (h : Heap) :
    propertiesAt (h ++ (responseCells h.length ++ responseCells (h.length + 7))) h.length
      = [("changes", JSValue.reference (h.length + 1)),
         ("variants", JSValue.reference (h.length + 2)),
         ("variantChanges", JSValue.reference (h.length + 3)),
         ("variantDependentControlChanges", JSValue.reference (h.length + 4)),
         ("variantManagementChanges", JSValue.reference (h.length + 5))] := by
  rw [propertiesAt_new_zero]
  rfl

theorem pushed_first (h : Heap) (k : Nat) (v : JSValue) :
    fieldsOf (arrayPush (h ++ (responseCells h.length ++ responseCells (h.length + 7)))
        (h.length + k) v) h.length
      = some (match k with
        | 1 => [("changes", some [v]), ("variants", some []), ("variantChanges", some []),
            ("variantDependentControlChanges", some []), ("variantManagementChanges", some [])]
        | 2 => [("changes", some []), ("variants", some [v]), ("variantChanges", some []),
            ("variantDependentControlChanges", some []), ("variantManagementChanges", some [])]
        | 3 => [("changes", some []), ("variants", some []), ("variantChanges", some [v]),
            ("variantDependentControlChanges", some []), ("variantManagementChanges", some [])]
        | 4 => [("changes", some []), ("variants", some []), ("variantChanges", some []),
            ("variantDependentControlChanges", some [v]), ("variantManagementChanges", some [])]
        | 5 => [("changes", some []), ("variants", some []), ("variantChanges", some []),
            ("variantDependentControlChanges", some []), ("variantManagementChanges", some [v])]
        | _ => emptyFlexData) := by
  rw [arrayPush_new]
  match k with
  | 0 | 1 | 2 | 3 | 4 | 5 | 6 | 7 | 8 | 9 | 10 | 11 | 12 | 13 =>
    simp [fieldsOf_new_zero, arrayAt_new, responseCells, emptyFlexData]
  | k + 14 =>
    simp [fieldsOf_new_zero, arrayAt_new, responseCells, emptyFlexData]

theorem pushed_second (h : Heap) (k : Nat) (hk : k < 7) (v : JSValue) :
    fieldsOf (arrayPush (h ++ (responseCells h.length ++ responseCells (h.length + 7)))
        (h.length + k) v) (h.length + 7)
      = some emptyFlexData := by
  rw [arrayPush_new]
  match k, hk with
  | 0, _ | 1, _ | 2, _ | 3, _ | 4, _ | 5, _ | 6, _ =>
    simp [fieldsOf_new, arrayAt_new, responseCells, emptyFlexData, Nat.add_assoc]

theorem getProperty_first (h : Heap) (field : String) :
    getProperty
        (propertiesAt (h ++ (responseCells h.length ++ responseCells (h.length + 7))) h.length)
        field
      = if "changes" = field then JSValue.reference (h.length + 1)
        else if "variants" = field then JSValue.reference (h.length + 2)
        else if "variantChanges" = field then JSValue.reference (h.length + 3)
        else if "variantDependentControlChanges" = field then JSValue.reference (h.length + 4)
        else if "variantManagementChanges" = field then JSValue.reference (h.length + 5)
        else JSValue.undefined := by
  rw [propertiesAt_first]
  by_cases c1 : "changes" = field
  · simp [getProperty, List.find?_cons, c1]
  by_cases c2 : "variants" = field
  · simp [getProperty, List.find?_cons, c1, c2]
  by_cases c3 : "variantChanges" = field
  · simp [getProperty, List.find?_cons, c1, c2, c3]
  by_cases c4 : "variantDependentControlChanges" = field
  · simp [getProperty, List.find?_cons, c1, c2, c3, c4]
  by_cases c5 : "variantManagementChanges" = field
  · simp [getProperty, List.find?_cons, c1, c2, c3, c4, c5]
  · simp [getProperty, List.find?_cons, c1, c2, c3, c4, c5]

/-- C15: every call of `getEmptyFlexDataResponse` returns an object with
exactly the five fields `changes`, `variants`, `variantChanges`,
`variantDependentControlChanges` and `variantManagementChanges`, each an empty
array. Two calls return equal but distinct objects: appending to a field of
the first result, or assigning a property of it, leaves the second result
unchanged, and a later call again returns five empty arrays. -/
theorem getEmptyFlexDataResponse_independent (h : Heap) (field : String) (v : JSValue) :
    let first := getEmptyFlexDataResponse h
    let second := getEmptyFlexDataResponse first.2
    let pushed := pushTo second.2 (getProperty (propertiesAt second.2 first.1) field) v
    let assigned := putProperty second.2 first.1 field v
    fieldsOf first.2 first.1 = some emptyFlexData
      ∧ fieldsOf second.2 second.1 = some emptyFlexData
      ∧ fieldsOf second.2 first.1 = some emptyFlexData
      ∧ first.1 ≠ second.1
      ∧ fieldsOf pushed first.1
        = some (emptyFlexData.map fun p => if p.1 = field then (p.1, some [v]) else p)
      ∧ fieldsOf pushed second.1 = some emptyFlexData
      ∧ fieldsOf assigned second.1 = some emptyFlexData
      ∧ fieldsOf (getEmptyFlexDataResponse pushed).2 (getEmptyFlexDataResponse pushed).1
        = some emptyFlexData
      ∧ fieldsOf (getEmptyFlexDataResponse assigned).2 (getEmptyFlexDataResponse assigned).1
        = some emptyFlexData := by
  intro first second pushed assigned
  have h1 : first = (h.length, h ++ responseCells h.length) := getEmptyFlexDataResponse_eq h
  have h2 : second
      = (h.length + 7, h ++ (responseCells h.length ++ responseCells (h.length + 7))) :=
    heap_two_calls h
  have hcases : "changes" = field ∨ "variants" = field ∨ "variantChanges" = field
      ∨ "variantDependentControlChanges" = field ∨ "variantManagementChanges" = field
      ∨ ("changes" ≠ field ∧ "variants" ≠ field ∧ "variantChanges" ≠ field
        ∧ "variantDependentControlChanges" ≠ field ∧ "variantManagementChanges" ≠ field) := by
    by_cases c1 : "changes" = field <;> by_cases c2 : "variants" = field <;>
      by_cases c3 : "variantChanges" = field <;>
      by_cases c4 : "variantDependentControlChanges" = field <;>
      by_cases c5 : "variantManagementChanges" = field <;> simp [c1, c2, c3, c4, c5]
  refine ⟨fieldsOf_fresh h, fieldsOf_fresh _, ?_, ?_, ?_, ?_, ?_, fieldsOf_fresh _,
    fieldsOf_fresh _⟩
  · rw [h1, h2]
    exact (fieldsOf_two_calls h).1
  · rw [h1, h2]
    simp
  · have hp := getProperty_first h field
    simp only [pushed, h1, h2]
    rw [hp]
    rcases hcases with rfl | rfl | rfl | rfl | rfl | ⟨n1, n2, n3, n4, n5⟩
    · simpa [pushTo, emptyFlexData] using pushed_first h 1 v
    · simpa [pushTo, emptyFlexData] using pushed_first h 2 v
    · simpa [pushTo, emptyFlexData] using pushed_first h 3 v
    · simpa [pushTo, emptyFlexData] using pushed_first h 4 v
    · simpa [pushTo, emptyFlexData] using pushed_first h 5 v
    · simp only [n1, n2, n3, n4, n5, if_false, pushTo]
      rw [(fieldsOf_two_calls h).1]
      simp [emptyFlexData, n1, n2, n3, n4, n5]
  · have hp := getProperty_first h field
    simp only [pushed, h1, h2]
    rw [hp]
    rcases hcases with rfl | rfl | rfl | rfl | rfl | ⟨n1, n2, n3, n4, n5⟩
    · simpa [pushTo] using pushed_second h 1 (by omega) v
    · simpa [pushTo] using pushed_second h 2 (by omega) v
    · simpa [pushTo] using pushed_second h 3 (by omega) v
    · simpa [pushTo] using pushed_second h 4 (by omega) v
    · simpa [pushTo] using pushed_second h 5 (by omega) v
    · simp only [n1, n2, n3, n4, n5, if_false, pushTo]
      exact (fieldsOf_two_calls h).2
  · simp only [assigned, h1, h2]
    rw [putProperty_new_zero]
    simp [responseCells, fieldsOf_new, arrayAt_new, emptyFlexData, Nat.add_assoc]

/-! ## getConnectors: the module loader -/

/-- C11, counterexample: when one of the two requested modules fails to load
and the loader reports the failure later, the promise of `getConnectors` is
pending; it is not rejected. -/
theorem getConnectors_load_failure_not_rejected :
    requireExcept "sap/ui/fl/apply/_internal/connectors/Missing" ["ALL"]
        (moduleNames APPLY_CONNECTOR_NAME_SPACE
          (connectorList STATIC_FILE_CONNECTOR_CONFIGURATION [{ connector := "Missing" }] true))
        = RequireOutcome.failed
      ∧ getConnectors STATIC_FILE_CONNECTOR_CONFIGURATION [{ connector := "Missing" }]
          (requireExcept "sap/ui/fl/apply/_internal/connectors/Missing" ["ALL"])
          APPLY_CONNECTOR_NAME_SPACE true
        = PromiseState.pending
      ∧ ¬ ∃ reason, getConnectors STATIC_FILE_CONNECTOR_CONFIGURATION [{ connector := "Missing" }]
          (requireExcept "sap/ui/fl/apply/_internal/connectors/Missing" ["ALL"])
          APPLY_CONNECTOR_NAME_SPACE true
        = PromiseState.rejected reason := by
  have hpending : getConnectors STATIC_FILE_CONNECTOR_CONFIGURATION [{ connector := "Missing" }]
      (requireExcept "sap/ui/fl/apply/_internal/connectors/Missing" ["ALL"])
      APPLY_CONNECTOR_NAME_SPACE true = PromiseState.pending := by decide
  refine ⟨by decide, hpending, ?_⟩
  rintro ⟨reason, hreason⟩
  rw [hpending] at hreason
  exact PromiseState.noConfusion hreason

/-- C11, amended: if the load of the requested modules fails, the promise of
`getConnectors` does not resolve, with a partial connector list or with any
other. It is rejected, with the error thrown, when the loader throws inside
the executor of the promise; it stays pending when the loader reports the
failure later, as no error callback is passed to it. -/
theorem getConnectors_load_failure (oStatic : ConnectorConfig)
    (aConfigured : List ConnectorConfig)
    (require : List String → RequireOutcome) (sNameSpace : String)
    (bStatic : Bool)
    (hfail : ∀ modules,
      require (moduleNames sNameSpace (connectorList oStatic aConfigured bStatic))
        ≠ RequireOutcome.loaded modules) :
    (¬ ∃ resolved, getConnectors oStatic aConfigured require sNameSpace bStatic
          = PromiseState.resolved resolved)
      ∧ (∀ error,
          require (moduleNames sNameSpace (connectorList oStatic aConfigured bStatic))
            = RequireOutcome.thrown error →
          getConnectors oStatic aConfigured require sNameSpace bStatic
            = PromiseState.rejected error)
      ∧ (require (moduleNames sNameSpace (connectorList oStatic aConfigured bStatic))
            = RequireOutcome.failed →
          getConnectors oStatic aConfigured require sNameSpace bStatic = PromiseState.pending) := by
  refine ⟨?_, ?_, ?_⟩
  · rintro ⟨resolved, hresolved⟩
    unfold getConnectors at hresolved
    simp only [] at hresolved
    cases hreq : require (moduleNames sNameSpace (connectorList oStatic aConfigured bStatic)) with
    | loaded modules => exact hfail modules hreq
    | failed =>
      rw [hreq] at hresolved
      exact PromiseState.noConfusion hresolved
    | thrown error =>
      rw [hreq] at hresolved
      exact PromiseState.noConfusion hresolved
  · intro error hthrown
    simp [getConnectors, hthrown]
  · intro hfailed
    simp [getConnectors, hfailed]

/-- Instance of `getConnectors_load_failure`: the static connector and a
configured connector whose module is missing, with a loader that throws. -/
theorem getConnectors_load_failure_witness :
    getConnectors STATIC_FILE_CONNECTOR_CONFIGURATION [{ connector := "Missing" }]
        (requireThrowing "sap/ui/fl/apply/_internal/connectors/Missing" ["ALL"])
        APPLY_CONNECTOR_NAME_SPACE true
      = PromiseState.rejected "failed to load sap/ui/fl/apply/_internal/connectors/Missing" :=
  (getConnectors_load_failure STATIC_FILE_CONNECTOR_CONFIGURATION [{ connector := "Missing" }]
    (requireThrowing "sap/ui/fl/apply/_internal/connectors/Missing" ["ALL"])
    APPLY_CONNECTOR_NAME_SPACE true
    (fun modules hloaded => by
      have hthrown : requireThrowing "sap/ui/fl/apply/_internal/connectors/Missing" ["ALL"]
          (moduleNames APPLY_CONNECTOR_NAME_SPACE
            (connectorList STATIC_FILE_CONNECTOR_CONFIGURATION [{ connector := "Missing" }] true))
          = RequireOutcome.thrown
              "failed to load sap/ui/fl/apply/_internal/connectors/Missing" := by decide
      rw [hthrown] at hloaded
      exact RequireOutcome.noConfusion hloaded)).2.1 _ (by decide)

/-- C12: the identifier passed to the module loader for the entry at position
`i` is the entry's connector id verbatim if the entry is custom, and the
namespace followed by the connector id otherwise; there are as many
identifiers as entries, in the same order. This list is the one the loader is
called with: a loader that names each module it returns by the identifier it
was asked for makes the promise resolve with, at every position `i`, a
`connectorModule` named by the identifier of the entry at position `i`; a
loader that throws makes the promise reject; and no other list is asked for. -/
theorem getConnectors_module_identifiers (oStatic : ConnectorConfig)
    (aConfigured : List ConnectorConfig)
    (require : List String → RequireOutcome) (sNameSpace : String)
    (bStatic : Bool) (layers : List String) (error : String) :
    (moduleNames sNameSpace (connectorList oStatic aConfigured bStatic)).length
        = (connectorList oStatic aConfigured bStatic).length
      ∧ (∀ i : Nat, (moduleNames sNameSpace (connectorList oStatic aConfigured bStatic))[i]?
          = ((connectorList oStatic aConfigured bStatic)[i]?).map fun (entry : ConnectorConfig) =>
              if entry.custom = true then entry.connector else sNameSpace ++ entry.connector)
      ∧ getConnectors oStatic aConfigured require sNameSpace bStatic
        = getConnectors oStatic aConfigured
            (fun names =>
              if names = (connectorList oStatic aConfigured bStatic).map
                  (fun (entry : ConnectorConfig) =>
                  if entry.custom = true then entry.connector else sNameSpace ++ entry.connector)
              then require names else RequireOutcome.failed)
            sNameSpace bStatic
      ∧ (∃ resolved, getConnectors oStatic aConfigured (requireAll layers) sNameSpace bStatic
          = PromiseState.resolved resolved
        ∧ resolved.length = (connectorList oStatic aConfigured bStatic).length
        ∧ ∀ i : Nat,
            (resolved[i]?).bind
                (fun (entry : ConnectorConfig) => entry.connectorModule.map fun m => m.name)
              = ((connectorList oStatic aConfigured bStatic)[i]?).map
                  (fun (entry : ConnectorConfig) =>
                    if entry.custom = true then entry.connector
                    else sNameSpace ++ entry.connector))
      ∧ getConnectors oStatic aConfigured
            (fun names =>
              if names = (connectorList oStatic aConfigured bStatic).map
                  (fun (entry : ConnectorConfig) =>
                  if entry.custom = true then entry.connector else sNameSpace ++ entry.connector)
              then RequireOutcome.thrown error else RequireOutcome.failed)
            sNameSpace bStatic
        = PromiseState.rejected error := by
  refine ⟨by simp [moduleNames], ?_, ?_, ?_, ?_⟩
  · intro i
    simp [moduleNames]
  · simp [getConnectors, moduleNames]
  · refine ⟨_, getConnectors_resolved oStatic aConfigured (requireAll layers) sNameSpace bStatic
      _ (loads_requireAll layers _), by simp [moduleNames], ?_⟩
    intro i
    rw [List.getElem?_zipWith]
    cases hi : (connectorList oStatic aConfigured bStatic)[i]? with
    | none => simp
    | some entry =>
      simp [moduleNames, hi, resolveEntry]
  · simp [getConnectors, moduleNames]

/-! ## sendRequest: the resolved result -/

theorem startsWith_empty : startsWith "" "application/json" = false := by decide

theorem jsonContentType_iff (header : Option String) :
    (truthy header && startsWith (header.getD "") "application/json") = true
      ↔ ∃ sContentType, header = some sContentType
          ∧ startsWith sContentType "application/json" = true := by
  cases header with
  | none => simp [truthy]
  | some s =>
    by_cases hs : s = ""
    · subst hs
      simp [truthy, startsWith_empty]
    · simp [truthy, hs]

/-- C13: for a response with a status in `[200, 400)`, the result the promise
is resolved with carries the parsed JSON body if and only if the response has
a `Content-Type` header that begins with `application/json`, and it always
carries the status of the response and, as `xsrfToken`, the value of the
response header `X-CSRF-Token` (absent when the header is absent). The promise
is resolved with such a result whenever the body needs no parsing or parses. -/
theorem onload_result {J : Type} (JSONparse : String → Option J) (xhr : XhrResponse)
    (hstatus : 200 ≤ xhr.status ∧ xhr.status < 400) :
    (∀ oResult, onload JSONparse xhr = PromiseState.resolved oResult →
        ((oResult.response ≠ none
            ↔ ∃ sContentType, xhr.getResponseHeader "Content-Type" = some sContentType
                ∧ startsWith sContentType "application/json" = true)
          ∧ (oResult.response ≠ none → oResult.response = JSONparse xhr.response)
          ∧ oResult.status = xhr.status
          ∧ oResult.xsrfToken = xhr.getResponseHeader "X-CSRF-Token"))
      ∧ ((¬ ∃ sContentType, xhr.getResponseHeader "Content-Type" = some sContentType
              ∧ startsWith sContentType "application/json" = true) →
          onload JSONparse xhr = PromiseState.resolved
            { response := none, status := xhr.status,
              xsrfToken := xhr.getResponseHeader "X-CSRF-Token" })
      ∧ (∀ parsed, (∃ sContentType, xhr.getResponseHeader "Content-Type" = some sContentType
              ∧ startsWith sContentType "application/json" = true) →
          JSONparse xhr.response = some parsed →
          onload JSONparse xhr = PromiseState.resolved
            { response := some parsed, status := xhr.status,
              xsrfToken := xhr.getResponseHeader "X-CSRF-Token" }) := by
  have hs : (decide (xhr.status ≥ 200) && decide (xhr.status < 400)) = true := by
    simp [hstatus.1, hstatus.2]
  have hjson := jsonContentType_iff (xhr.getResponseHeader "Content-Type")
  refine ⟨?_, ?_, ?_⟩
  · intro oResult hresolved
    unfold onload at hresolved
    simp only [hs, if_true] at hresolved
    by_cases hc : (truthy (xhr.getResponseHeader "Content-Type")
        && startsWith ((xhr.getResponseHeader "Content-Type").getD "") "application/json") = true
    · simp only [hc, if_true] at hresolved
      cases hp : JSONparse xhr.response with
      | none =>
        rw [hp] at hresolved
        exact PromiseState.noConfusion hresolved
      | some parsed =>
        rw [hp] at hresolved
        injection hresolved with hvalue
        subst hvalue
        exact ⟨⟨fun _ => hjson.1 hc, fun _ => by simp⟩, fun _ => rfl, rfl, rfl⟩
    · simp only [hc, if_false] at hresolved
      injection hresolved with hvalue
      subst hvalue
      refine ⟨⟨fun h => absurd rfl h, fun h => absurd (hjson.2 h) hc⟩, fun h => absurd rfl h,
        rfl, rfl⟩
  · intro hnot
    have hc : ¬ (truthy (xhr.getResponseHeader "Content-Type")
        && startsWith ((xhr.getResponseHeader "Content-Type").getD "") "application/json") = true :=
      fun h => hnot (hjson.1 h)
    unfold onload
    simp [hs, hc]
  · intro parsed his hparsed
    have hc := hjson.2 his
    unfold onload
    simp only [hs, if_true, hc, hparsed]

/-- Instance of `onload_result`: a response with status 200, content type
`application/json; charset=utf-8` and the body `7`. -/
theorem onload_result_witness :
    onload parseDigit jsonResponse
      = PromiseState.resolved { response := some 7, status := 200, xsrfToken := some "token" } :=
  (onload_result parseDigit jsonResponse (by decide)).2.2 7
    ⟨"application/json; charset=utf-8", rfl, by decide⟩ (by decide)

/-! ## getSubsetOfObject -/

theorem hasProperty_cons (p : String × JSValue) (o : JSObject) (k : String) :
    hasProperty (p :: o) k = (p.1 == k || hasProperty o k) := by
  simp [hasProperty]

theorem getProperty_cons (p : String × JSValue) (o : JSObject) (k : String) :
    getProperty (p :: o) k = if p.1 = k then p.2 else getProperty o k := by
  unfold getProperty
  rw [List.find?_cons]
  by_cases h : p.1 = k
  · have hb : (p.1 == k) = true := by simpa using h
    simp [hb, h]
  · have hb : (p.1 == k) = false := by simpa using h
    simp [hb, h]

theorem hasProperty_of_getProperty (o : JSObject) (k : String)
    (h : getProperty o k ≠ JSValue.undefined) : hasProperty o k = true := by
  induction o with
  | nil => exact absurd rfl h
  | cons p o ih =>
    rw [hasProperty_cons]
    rw [getProperty_cons] at h
    by_cases hp : p.1 = k
    · simp [hp]
    · rw [if_neg hp] at h
      simp [ih h]

theorem getProperty_of_not_hasProperty (o : JSObject) (k : String)
    (h : hasProperty o k = false) : getProperty o k = JSValue.undefined := by
  by_contra hne
  rw [hasProperty_of_getProperty o k hne] at h
  exact Bool.noConfusion h

theorem hasProperty_map (o : JSObject) (k k' : String) (v : JSValue) :
    hasProperty (o.map fun p => if p.1 == k then (k, v) else p) k' = hasProperty o k' := by
  induction o with
  | nil => rfl
  | cons p o ih =>
    rw [List.map_cons, hasProperty_cons, hasProperty_cons, ih]
    by_cases h : p.1 = k <;> simp [h]

theorem hasProperty_append (o : JSObject) (k k' : String) (v : JSValue) :
    hasProperty (o ++ [(k, v)]) k' = (hasProperty o k' || k == k') := by
  simp [hasProperty, List.any_append]

theorem getProperty_map (o : JSObject) (k k' : String) (v : JSValue) :
    getProperty (o.map fun p => if p.1 == k then (k, v) else p) k'
      = if k' = k then (if hasProperty o k = true then v else JSValue.undefined)
        else getProperty o k' := by
  induction o with
  | nil => simp [getProperty, hasProperty]
  | cons p o ih =>
    rw [List.map_cons, getProperty_cons, ih, getProperty_cons, hasProperty_cons]
    by_cases h1 : p.1 = k <;> by_cases h2 : k' = k <;> by_cases h3 : p.1 = k' <;>
      simp_all

theorem getProperty_append (o : JSObject) (k k' : String) (v : JSValue) :
    getProperty (o ++ [(k, v)]) k'
      = if hasProperty o k' = true then getProperty o k'
        else if k' = k then v else JSValue.undefined := by
  induction o with
  | nil =>
    simp only [List.nil_append, getProperty_cons]
    by_cases h : k = k' <;> simp [h, hasProperty, getProperty, eq_comm]
  | cons p o ih =>
    rw [List.cons_append, getProperty_cons, ih, getProperty_cons, hasProperty_cons]
    by_cases h3 : p.1 = k' <;> simp [h3]

theorem hasProperty_setProperty (o : JSObject) (k k' : String) (v : JSValue) :
    hasProperty (setProperty o k v) k' = (hasProperty o k' || k' == k) := by
  unfold setProperty
  by_cases hk : hasProperty o k = true
  · rw [if_pos hk, hasProperty_map]
    by_cases hkk : k' = k
    · subst hkk
      simp [hk]
    · simp [hkk]
  · rw [if_neg hk, hasProperty_append]
    have hsymm : (k == k') = (k' == k) := by
      by_cases hkk : k' = k
      · subst hkk
        rfl
      · have h1 : (k' == k) = false := by simpa using hkk
        have h2 : (k == k') = false := by simpa using fun h : k = k' => hkk h.symm
        rw [h1, h2]
    rw [hsymm]

theorem getProperty_setProperty (o : JSObject) (k k' : String) (v : JSValue) :
    getProperty (setProperty o k v) k' = if k' = k then v else getProperty o k' := by
  unfold setProperty
  by_cases hk : hasProperty o k = true
  · rw [if_pos hk, getProperty_map]
    simp [hk]
  · rw [if_neg hk, getProperty_append]
    by_cases hkk : k' = k
    · subst hkk
      rw [if_neg hk]
      simp
    · rw [if_neg hkk, if_neg hkk]
      by_cases hk' : hasProperty o k' = true
      · rw [if_pos hk']
      · rw [if_neg hk']
        exact (getProperty_of_not_hasProperty o k' (by simpa using hk')).symm

theorem hasProperty_assignProperty (o : JSObject) (k k' : String) (v : JSValue) :
    hasProperty (assignProperty o k v) k'
      = (hasProperty o k' || (k' == k && k != "__proto__")) := by
  unfold assignProperty
  by_cases hk : k = "__proto__"
  · rw [if_pos hk]
    simp [hk]
  · have hb : (k != "__proto__") = true := by simpa using hk
    rw [if_neg hk, hasProperty_setProperty, hb, Bool.and_true]

theorem getProperty_assignProperty (o : JSObject) (k k' : String) (v : JSValue) :
    getProperty (assignProperty o k v) k'
      = if k' = k ∧ k ≠ "__proto__" then v else getProperty o k' := by
  unfold assignProperty
  by_cases hk : k = "__proto__"
  · rw [if_pos hk]
    simp [hk]
  · rw [if_neg hk, getProperty_setProperty]
    simp [hk]

theorem forEachKey_spec (read : String → JSValue) (keys : List String) :
    ∀ (oTarget : JSObject) (k : String),
      ((k ∈ keys ∧ (read k).truthy = true ∧ k ≠ "__proto__") →
        hasProperty
            (keys.foldl
              (fun oTarget sKey =>
                if (read sKey).truthy then assignProperty oTarget sKey (read sKey)
                else oTarget)
              oTarget) k = true
          ∧ getProperty
            (keys.foldl
              (fun oTarget sKey =>
                if (read sKey).truthy then assignProperty oTarget sKey (read sKey)
                else oTarget)
              oTarget) k = read k)
      ∧ (¬ (k ∈ keys ∧ (read k).truthy = true ∧ k ≠ "__proto__") →
        hasProperty
            (keys.foldl
              (fun oTarget sKey =>
                if (read sKey).truthy then assignProperty oTarget sKey (read sKey)
                else oTarget)
              oTarget) k = hasProperty oTarget k
          ∧ getProperty
            (keys.foldl
              (fun oTarget sKey =>
                if (read sKey).truthy then assignProperty oTarget sKey (read sKey)
                else oTarget)
              oTarget) k = getProperty oTarget k) := by
  induction keys with
  | nil =>
    intro oTarget k
    simp
  | cons sKey rest ih =>
    intro oTarget k
    rw [List.foldl_cons]
    by_cases hrest : k ∈ rest ∧ (read k).truthy = true ∧ k ≠ "__proto__"
    · have h1 := (ih (if (read sKey).truthy then assignProperty oTarget sKey (read sKey)
          else oTarget) k).1 hrest
      refine ⟨fun _ => h1, fun hnot => ?_⟩
      exact absurd ⟨List.mem_cons_of_mem _ hrest.1, hrest.2⟩ hnot
    · have h2 := (ih (if (read sKey).truthy then assignProperty oTarget sKey (read sKey)
          else oTarget) k).2 hrest
      rw [h2.1, h2.2]
      constructor
      · rintro ⟨hmem, htruthy, hproto⟩
        have hk : k = sKey := by
          rcases List.mem_cons.1 hmem with h | h
          · exact h
          · exact absurd ⟨h, htruthy, hproto⟩ hrest
        subst hk
        rw [if_pos htruthy, hasProperty_assignProperty, getProperty_assignProperty]
        simp [hproto]
      · intro hnot
        by_cases htruthy : (read sKey).truthy = true
        · rw [if_pos htruthy, hasProperty_assignProperty, getProperty_assignProperty]
          by_cases hk : k = sKey
          · subst hk
            have hproto : k = "__proto__" := by
              by_contra hne
              exact hnot ⟨List.mem_cons_self _ _, htruthy, hne⟩
            simp [hproto]
          · simp [hk]
        · rw [if_neg htruthy]
          exact ⟨rfl, rfl⟩

theorem truthy_ne_undefined (v : JSValue) (h : v.truthy = true) : v ≠ JSValue.undefined := by
  intro hv
  subst hv
  exact Bool.noConfusion h

theorem hasProperty_of_readProperty (inherited o : JSObject) (k : String)
    (h : readProperty inherited o k ≠ JSValue.undefined) :
    hasProperty o k = true ∨ hasProperty inherited k = true := by
  unfold readProperty at h
  by_cases ho : hasProperty o k = true
  · exact Or.inl ho
  · rw [if_neg ho] at h
    exact Or.inr (hasProperty_of_getProperty inherited k h)

/-- C14, the code at a failing input: for the source
`{layer: "CUSTOMER", draft: false}` and the keys `["layer", "draft"]` the target
is `{layer: "CUSTOMER"}`; the pair `draft: false` of the source is not in it. -/
theorem getSubsetOfObject_drops_falsy :
    getSubsetOfObject objectPrototype
        [("layer", JSValue.string "CUSTOMER"), ("draft", JSValue.boolean false)]
        (some ["layer", "draft"])
      = [("layer", JSValue.string "CUSTOMER")]
      ∧ hasProperty [("layer", JSValue.string "CUSTOMER"), ("draft", JSValue.boolean false)]
          "draft" = true
      ∧ hasProperty
          (getSubsetOfObject objectPrototype
            [("layer", JSValue.string "CUSTOMER"), ("draft", JSValue.boolean false)]
            (some ["layer", "draft"]))
          "draft" = false := by
  refine ⟨?_, ?_, ?_⟩ <;> decide

/-- What `getSubsetOfObject` does copy: for every key of `aKeys`, other than
`__proto__`, whose value in the source is truthy, the target has the property
with the value of the source. -/
theorem getSubsetOfObject_copies_truthy (inherited oSource : JSObject) (keys : List String)
    (k : String) (hk : k ∈ keys) (htruthy : (readProperty inherited oSource k).truthy = true)
    (hproto : k ≠ "__proto__") :
    hasProperty (getSubsetOfObject inherited oSource (some keys)) k = true
      ∧ getProperty (getSubsetOfObject inherited oSource (some keys)) k
        = readProperty inherited oSource k :=
  (forEachKey_spec (readProperty inherited oSource) keys [] k).1 ⟨hk, htruthy, hproto⟩

/-- C18: every property of the object returned by `getSubsetOfObject` is named
by an element of the given keys, is a property of the source, its own or an
inherited one, and has the value the source has for it; and when the keys are
not an array the returned object is the empty object. So for the source `{}`
and the key `toString` the target holds the inherited function. -/
theorem getSubsetOfObject_subset (inherited oSource : JSObject)
    (aKeys : Option (List String))
    (k : String) (hk : hasProperty (getSubsetOfObject inherited oSource aKeys) k = true) :
    ((∃ keys, aKeys = some keys ∧ k ∈ keys)
        ∧ (hasProperty oSource k = true ∨ hasProperty inherited k = true)
        ∧ getProperty (getSubsetOfObject inherited oSource aKeys) k
          = readProperty inherited oSource k
        ∧ (readProperty inherited oSource k).truthy = true)
      ∧ getSubsetOfObject inherited oSource none = []
      ∧ getSubsetOfObject objectPrototype [] (some ["toString"])
        = [("toString", JSValue.reference 6)] := by
  refine ⟨?_, rfl, by decide⟩
  cases aKeys with
  | none => exact absurd hk (by simp [getSubsetOfObject, hasProperty])
  | some keys =>
    by_cases hcopied : k ∈ keys ∧ (readProperty inherited oSource k).truthy = true
        ∧ k ≠ "__proto__"
    · exact ⟨⟨keys, rfl, hcopied.1⟩,
        hasProperty_of_readProperty inherited oSource k (truthy_ne_undefined _ hcopied.2.1),
        ((forEachKey_spec (readProperty inherited oSource) keys [] k).1 hcopied).2,
        hcopied.2.1⟩
    · have hnone := ((forEachKey_spec (readProperty inherited oSource) keys [] k).2 hcopied).1
      have hk' : hasProperty
          (keys.foldl
            (fun oTarget sKey =>
              if (readProperty inherited oSource sKey).truthy then
                assignProperty oTarget sKey (readProperty inherited oSource sKey)
              else oTarget)
            []) k = true := hk
      rw [hnone] at hk'
      exact absurd hk' (by simp [hasProperty])

/-- Instance of `getSubsetOfObject_subset`: the property `layer` of the subset
of `{layer: "CUSTOMER", draft: false, reference: "app"}` for the keys
`["layer", "draft", "valueOf"]`. -/
theorem getSubsetOfObject_subset_witness :
    getSubsetOfObject objectPrototype
        [("layer", JSValue.string "CUSTOMER"), ("draft", JSValue.boolean false),
         ("reference", JSValue.string "app")]
        (some ["layer", "draft", "valueOf"])
      = [("layer", JSValue.string "CUSTOMER"), ("valueOf", JSValue.reference 7)]
      ∧ getProperty
          (getSubsetOfObject objectPrototype
            [("layer", JSValue.string "CUSTOMER"), ("draft", JSValue.boolean false),
             ("reference", JSValue.string "app")]
            (some ["layer", "draft", "valueOf"])) "layer"
        = readProperty objectPrototype
            [("layer", JSValue.string "CUSTOMER"), ("draft", JSValue.boolean false),
             ("reference", JSValue.string "app")] "layer" :=
  ⟨by decide,
    (getSubsetOfObject_subset objectPrototype
      [("layer", JSValue.string "CUSTOMER"), ("draft", JSValue.boolean false),
       ("reference", JSValue.string "app")]
      (some ["layer", "draft", "valueOf"]) "layer" (by decide)).1.2.2.1⟩

/-! ## getApplyConnectors, duplicates and a second resolution -/

theorem map_connector_zipWith (es : List ConnectorConfig) (ms : List ConnectorModule)
    (h : ms.length = es.length) :
    (List.zipWith resolveEntry es ms).map (fun e => e.connector)
      = es.map fun e => e.connector := by
  have hd := congrArg (List.map Prod.fst) (map_declaration_zipWith es ms h)
  simpa [List.map_map, Function.comp, declaration] using hd

theorem loads_length (require : List String → RequireOutcome)
    (sNameSpace : String) (es : List ConnectorConfig) (ms : List ConnectorModule)
    (h : Loads require (moduleNames sNameSpace es) ms) : ms.length = es.length := by
  simpa [moduleNames] using h.2

/-- C16: `getApplyConnectors()` is
`getConnectors("sap/ui/fl/apply/_internal/connectors/", true)`: the first module
requested is `sap/ui/fl/apply/_internal/connectors/StaticFileConnector`, and the
promise resolves with the static file connector first, followed by the
connectors of the configuration in their order. -/
theorem getApplyConnectors_eq (oStatic : ConnectorConfig) (aConfigured : List ConnectorConfig)
    (require : List String → RequireOutcome) (modules : List ConnectorModule)
    (hstatic : declaration oStatic = declaration STATIC_FILE_CONNECTOR_CONFIGURATION)
    (hload : Loads require
      (moduleNames "sap/ui/fl/apply/_internal/connectors/"
        (connectorList oStatic aConfigured true)) modules) :
    getApplyConnectors oStatic aConfigured require
        = getConnectors oStatic aConfigured require "sap/ui/fl/apply/_internal/connectors/" true
      ∧ (moduleNames "sap/ui/fl/apply/_internal/connectors/"
          (connectorList oStatic aConfigured true)).head?
        = some "sap/ui/fl/apply/_internal/connectors/StaticFileConnector"
      ∧ ∃ resolved, getApplyConnectors oStatic aConfigured require
          = PromiseState.resolved resolved
        ∧ resolved.map (fun e => e.connector)
          = "StaticFileConnector" :: aConfigured.map (fun e => e.connector) := by
  have hconnector : oStatic.connector = "StaticFileConnector" := congrArg Prod.fst hstatic
  have hcustom : oStatic.custom = false := congrArg (fun d => d.2.1) hstatic
  refine ⟨rfl, ?_, ?_⟩
  · simp [moduleNames, connectorList, hconnector, hcustom]
  · refine ⟨_, getConnectors_resolved oStatic aConfigured require
      "sap/ui/fl/apply/_internal/connectors/" true modules hload, ?_⟩
    rw [map_connector_zipWith _ _ (loads_length _ _ _ _ hload)]
    simp [connectorList, hconnector]

/-- Instance of `getApplyConnectors_eq`: a configuration with the single
connector `LrepConnector`. -/
theorem getApplyConnectors_eq_witness :
    ∃ resolved, getApplyConnectors STATIC_FILE_CONNECTOR_CONFIGURATION
        [{ connector := "LrepConnector" }] (requireAll ["ALL"])
        = PromiseState.resolved resolved
      ∧ resolved.map (fun e => e.connector) = ["StaticFileConnector", "LrepConnector"] :=
  (getApplyConnectors_eq STATIC_FILE_CONNECTOR_CONFIGURATION
    [{ connector := "LrepConnector" }] (requireAll ["ALL"]) _ rfl (loads_requireAll _ _)).2.2

/-- C17, counterexample: a configuration that names `StaticFileConnector`
resolves, with the static file connector included, to a list whose two entries
have the same connector identifier. -/
theorem getConnectors_duplicate_connector :
    getConnectors STATIC_FILE_CONNECTOR_CONFIGURATION [{ connector := "StaticFileConnector" }]
        (requireAll ["ALL"]) APPLY_CONNECTOR_NAME_SPACE true
      = PromiseState.resolved
          [{ connector := "StaticFileConnector", layerFilter := some [], layers := some ["ALL"],
             connectorModule := some
               { name := "sap/ui/fl/apply/_internal/connectors/StaticFileConnector",
                 layers := ["ALL"] } },
           { connector := "StaticFileConnector", layers := some ["ALL"],
             connectorModule := some
               { name := "sap/ui/fl/apply/_internal/connectors/StaticFileConnector",
                 layers := ["ALL"] } }]
      ∧ ¬ (["StaticFileConnector", "StaticFileConnector"] : List String).Nodup := by
  constructor
  · decide
  · decide

/-- C17, amended: the list `getConnectors` resolves with is not de-duplicated.
Its connector identifiers are those of the static entry, if included, followed
by those of the configured connectors, each as often as it is configured; so
no two resolved entries have the same identifier exactly when no two of these
entries have. -/
theorem getConnectors_keeps_duplicates (oStatic : ConnectorConfig)
    (aConfigured : List ConnectorConfig)
    (require : List String → RequireOutcome) (sNameSpace : String)
    (bStatic : Bool) (modules : List ConnectorModule)
    (hload : Loads require
      (moduleNames sNameSpace (connectorList oStatic aConfigured bStatic)) modules) :
    ∃ resolved, getConnectors oStatic aConfigured require sNameSpace bStatic
        = PromiseState.resolved resolved
      ∧ resolved.map (fun e => e.connector)
        = (if bStatic then [oStatic.connector] else []) ++ aConfigured.map (fun e => e.connector)
      ∧ ((resolved.map (fun e => e.connector)).Nodup
        ↔ ((if bStatic then [oStatic.connector] else [])
            ++ aConfigured.map (fun e => e.connector)).Nodup) := by
  have hmap : (List.zipWith resolveEntry (connectorList oStatic aConfigured bStatic) modules).map
      (fun e => e.connector)
      = (if bStatic then [oStatic.connector] else []) ++ aConfigured.map (fun e => e.connector) := by
    rw [map_connector_zipWith _ _ (loads_length _ _ _ _ hload)]
    cases bStatic <;> simp [connectorList]
  exact ⟨_, getConnectors_resolved oStatic aConfigured require sNameSpace bStatic modules hload,
    hmap, by rw [hmap]⟩

/-- Instance of `getConnectors_keeps_duplicates`: a configuration naming
`LrepConnector` twice. -/
theorem getConnectors_keeps_duplicates_witness :
    ∃ resolved, getConnectors STATIC_FILE_CONNECTOR_CONFIGURATION
        [{ connector := "LrepConnector" }, { connector := "LrepConnector" }]
        (requireAll ["ALL"]) APPLY_CONNECTOR_NAME_SPACE true
        = PromiseState.resolved resolved
      ∧ resolved.map (fun e => e.connector)
        = ["StaticFileConnector", "LrepConnector", "LrepConnector"] := by
  obtain ⟨resolved, hresolved, hmap, _⟩ :=
    getConnectors_keeps_duplicates STATIC_FILE_CONNECTOR_CONFIGURATION
      [{ connector := "LrepConnector" }, { connector := "LrepConnector" }]
      (requireAll ["ALL"]) APPLY_CONNECTOR_NAME_SPACE true _ (loads_requireAll _ _)
  exact ⟨resolved, hresolved, hmap⟩

theorem filterValidLayers_self (V : List String) : _filterValidLayers V V = V := by
  rw [filterValidLayers_eq, List.filter_eq_self]
  intro x hx
  exact decide_eq_true (Or.inl hx)

theorem filterValidLayers_idem (L V : List String) :
    _filterValidLayers (_filterValidLayers L V) V = _filterValidLayers L V := by
  rw [filterValidLayers_eq (_filterValidLayers L V) V, filterValidLayers_eq L V,
    List.filter_filter]
  simp

theorem resolveEntry_idem (e : ConnectorConfig) (m : ConnectorModule) :
    resolveEntry (resolveEntry e m) m = resolveEntry e m := by
  cases hL : e.layers with
  | none => simp [resolveEntry, hL, filterValidLayers_self]
  | some L => simp [resolveEntry, hL, filterValidLayers_idem]

theorem zipWith_resolveEntry_idem (es : List ConnectorConfig) :
    ∀ ms : List ConnectorModule,
      List.zipWith resolveEntry (List.zipWith resolveEntry es ms) ms
        = List.zipWith resolveEntry es ms := by
  induction es with
  | nil => intro ms; simp
  | cons e es ih =>
    intro ms
    cases ms with
    | nil => simp
    | cons m ms => simp [resolveEntry_idem, ih ms]

theorem moduleNames_zipWith (sNameSpace : String) (es : List ConnectorConfig)
    (ms : List ConnectorModule) (h : ms.length = es.length) :
    moduleNames sNameSpace (List.zipWith resolveEntry es ms) = moduleNames sNameSpace es := by
  have hd := map_declaration_zipWith es ms h
  have hf : ∀ l : List ConnectorConfig, moduleNames sNameSpace l
      = (l.map declaration).map fun d => if d.2.1 then d.1 else sNameSpace ++ d.1 := by
    intro l
    simp [moduleNames, declaration, List.map_map, Function.comp]
  rw [hf, hf, hd]

/-- C19: resolving again is idempotent on the layers. `_filterValidLayers(V, V)`
is `V` and filtering twice against the same `V` is filtering once; so a second
`getConnectors` call on the entries the first call wrote back, with the same
modules loaded, resolves with these entries unchanged. -/
theorem getConnectors_second_call (V L : List String) (oStatic : ConnectorConfig)
    (aConfigured : List ConnectorConfig)
    (require : List String → RequireOutcome) (sNameSpace : String)
    (bStatic : Bool) (modules : List ConnectorModule)
    (oStaticAfter : ConnectorConfig) (aConfiguredAfter : List ConnectorConfig)
    (hload : Loads require
      (moduleNames sNameSpace (connectorList oStatic aConfigured bStatic)) modules)
    (hfirst : getConnectors oStatic aConfigured require sNameSpace bStatic
      = PromiseState.resolved (connectorList oStaticAfter aConfiguredAfter bStatic)) :
    _filterValidLayers V V = V
      ∧ _filterValidLayers (_filterValidLayers L V) V = _filterValidLayers L V
      ∧ getConnectors oStaticAfter aConfiguredAfter require sNameSpace bStatic
        = PromiseState.resolved (connectorList oStaticAfter aConfiguredAfter bStatic) := by
  refine ⟨filterValidLayers_self V, filterValidLayers_idem L V, ?_⟩
  have hlen := loads_length _ _ _ _ hload
  have hres := getConnectors_resolved oStatic aConfigured require sNameSpace bStatic modules
    hload
  rw [hres] at hfirst
  injection hfirst with hafter
  have hload2 : Loads require
      (moduleNames sNameSpace (connectorList oStaticAfter aConfiguredAfter bStatic)) modules := by
    rw [← hafter, moduleNames_zipWith _ _ _ hlen]
    exact hload
  rw [getConnectors_resolved oStaticAfter aConfiguredAfter require sNameSpace bStatic modules
    hload2, ← hafter, zipWith_resolveEntry_idem]

/-- Instance of `getConnectors_second_call`: the static entry and a connector
with pre-declared layers, resolved twice against modules declaring
`["CUSTOMER", "VENDOR"]`. -/
theorem getConnectors_second_call_witness :
    getConnectors
        { connector := "StaticFileConnector", layerFilter := some [],
          layers := some ["CUSTOMER", "VENDOR"],
          connectorModule := some
            { name := "sap/ui/fl/apply/_internal/connectors/StaticFileConnector",
              layers := ["CUSTOMER", "VENDOR"] } }
        [{ connector := "LrepConnector", layers := some ["VENDOR"],
           connectorModule := some
             { name := "sap/ui/fl/apply/_internal/connectors/LrepConnector",
               layers := ["CUSTOMER", "VENDOR"] } }]
        (requireAll ["CUSTOMER", "VENDOR"]) APPLY_CONNECTOR_NAME_SPACE true
      = PromiseState.resolved
          [{ connector := "StaticFileConnector", layerFilter := some [],
             layers := some ["CUSTOMER", "VENDOR"],
             connectorModule := some
               { name := "sap/ui/fl/apply/_internal/connectors/StaticFileConnector",
                 layers := ["CUSTOMER", "VENDOR"] } },
           { connector := "LrepConnector", layers := some ["VENDOR"],
             connectorModule := some
               { name := "sap/ui/fl/apply/_internal/connectors/LrepConnector",
                 layers := ["CUSTOMER", "VENDOR"] } }] :=
  (getConnectors_second_call [] [] STATIC_FILE_CONNECTOR_CONFIGURATION
    [{ connector := "LrepConnector", layers := some ["VENDOR", "USER"] }]
    (requireAll ["CUSTOMER", "VENDOR"]) APPLY_CONNECTOR_NAME_SPACE true _
    { connector := "StaticFileConnector", layerFilter := some [],
      layers := some ["CUSTOMER", "VENDOR"],
      connectorModule := some
        { name := "sap/ui/fl/apply/_internal/connectors/StaticFileConnector",
          layers := ["CUSTOMER", "VENDOR"] } }
    [{ connector := "LrepConnector", layers := some ["VENDOR"],
       connectorModule := some
         { name := "sap/ui/fl/apply/_internal/connectors/LrepConnector",
           layers := ["CUSTOMER", "VENDOR"] } }]
    (loads_requireAll _ _) (by decide)).2.2

/-! ## sendRequest: one token header at most -/

theorem sendRequest_tokenHeaders (toUpperCase : String → String)
    (sUrl : String) (sMethod : Option String) (mPropertyBag : Option RequestPropertyBag) :
    (sendRequest toUpperCase sUrl sMethod mPropertyBag).tokenHeaders
      = (if (normalizeMethod toUpperCase sMethod == "GET"
              || normalizeMethod toUpperCase sMethod == "HEAD")
            && (!mPropertyBag.isSome || !truthy (mPropertyBag.bind (·.xsrfToken)))
          then ["fetch"] else [])
        ++ (if (normalizeMethod toUpperCase sMethod == "POST"
              || normalizeMethod toUpperCase sMethod == "PUT"
              || normalizeMethod toUpperCase sMethod == "DELETE")
            && mPropertyBag.isSome && truthy (mPropertyBag.bind (·.xsrfToken))
          then [(mPropertyBag.bind (·.xsrfToken)).getD ""] else []) := by
  simp only [XHR.tokenHeaders, sendRequest_requestHeaders, List.filter_append, List.map_append]
  have h3 : List.filter (fun h : String × String => h.1 == "X-CSRF-Token")
      (if (mPropertyBag.isSome && truthy (mPropertyBag.bind (·.contentType))) = true
        then [("Content-Type", (mPropertyBag.bind (·.contentType)).getD "")] else []) = [] := by
    split_ifs <;> simp
  rw [h3]
  split_ifs <;> simp

/-- C20: `sendRequest` sets the `X-CSRF-Token` request header at most once per
request. The condition under which `"fetch"` is sent and the condition under
which the supplied token is sent exclude each other: on `POST`, `PUT` or
`DELETE` the only token header is the supplied token, if there is one, and on
`GET` or `HEAD` the only token header is `"fetch"`, sent when no token is
supplied. -/
theorem sendRequest_token_header_once (toUpperCase : String → String)
    (sUrl : String) (sMethod : Option String) (mPropertyBag : Option RequestPropertyBag) :
    (sendRequest toUpperCase sUrl sMethod mPropertyBag).tokenHeaders.length ≤ 1
      ∧ ¬ (((normalizeMethod toUpperCase sMethod == "GET"
              || normalizeMethod toUpperCase sMethod == "HEAD")
            && (!mPropertyBag.isSome || !truthy (mPropertyBag.bind (·.xsrfToken)))) = true
          ∧ ((normalizeMethod toUpperCase sMethod == "POST"
              || normalizeMethod toUpperCase sMethod == "PUT"
              || normalizeMethod toUpperCase sMethod == "DELETE")
            && mPropertyBag.isSome && truthy (mPropertyBag.bind (·.xsrfToken))) = true)
      ∧ (if normalizeMethod toUpperCase sMethod = "POST"
            ∨ normalizeMethod toUpperCase sMethod = "PUT"
            ∨ normalizeMethod toUpperCase sMethod = "DELETE" then
          (sendRequest toUpperCase sUrl sMethod mPropertyBag).tokenHeaders
            = (if mPropertyBag.isSome && truthy (mPropertyBag.bind (·.xsrfToken))
                then [(mPropertyBag.bind (·.xsrfToken)).getD ""] else [])
        else if normalizeMethod toUpperCase sMethod = "GET"
            ∨ normalizeMethod toUpperCase sMethod = "HEAD" then
          (sendRequest toUpperCase sUrl sMethod mPropertyBag).tokenHeaders
            = (if mPropertyBag.isSome && truthy (mPropertyBag.bind (·.xsrfToken))
                then [] else ["fetch"])
        else (sendRequest toUpperCase sUrl sMethod mPropertyBag).tokenHeaders = []) := by
  rw [sendRequest_tokenHeaders]
  generalize normalizeMethod toUpperCase sMethod = method
  generalize mPropertyBag.isSome = present
  generalize truthy (mPropertyBag.bind (·.xsrfToken)) = supplied
  generalize (mPropertyBag.bind (·.xsrfToken)).getD "" = token
  by_cases h1 : method = "GET" <;> by_cases h2 : method = "HEAD" <;>
    by_cases h3 : method = "POST" <;> by_cases h4 : method = "PUT" <;>
    by_cases h5 : method = "DELETE" <;> cases present <;> cases supplied <;>
    simp [h1, h2, h3, h4, h5]

end Utils
